import Mathlib

/-!
# Verification of rpki-client-web

A shallow embedding of the parts of `rpki-client-web` (Python) that the
checked properties concern:

* `rpkiclientweb/outputparser.py` — the legacy line classifier
  (`parse_maybe_warning_line`, `OutputParser`, `missing_labels`),
* `rpkiclientweb/parsing.py` — the current line classifier,
* `rpkiclientweb/models.py` — the event data model with its
  `__post_init__` URI normalisations,
* `rpkiclientweb/util/misc.py` — `parse_host` and the `repeat` scheduler
  loop,
* `rpkiclientweb/rpki_client.py` — argument-vector construction, the
  process runner, and the cross-run warning/repository reconciliation.

Python strings are modelled as `List Char`.  Each regular expression of
the source is embedded as an executable matching function whose doc
comment quotes the regex; all the regexes used have the restricted shape
`PREFIX (.*) LITERAL ...` (with `[^:]+` and `[0-9]+` variants), for which
CPython's leftmost `re.match` with greedy groups is: the group captures up
to the *last* occurrence of the literal whose continuation matches.
Unescaped `.` inside literal segments of the source regexes (e.g. the
dots of `RFC 6487 section 4.8.8`) is modelled as the literal character.
-/

namespace RpkiWeb

/-- Python strings are modelled as lists of characters. -/
abbrev Str := List Char

/-- Embed a Lean string literal. -/
def str (s : String) : Str := s.data

/-- The literal `m` occurs in `s` at position `i`. -/
def occursAt (m s : Str) (i : Nat) : Bool := m.isPrefixOf (s.drop i)

/-- Position of the last occurrence of `m` in `s` (the split point a greedy
`(.*)M` group backtracks to). -/
def lastIndexOf (m s : Str) : Option Nat :=
  ((List.range (s.length + 1)).filter (fun i => occursAt m s i)).getLast?

/-- Split `s` around the last occurrence of `m`: `some (before, after)`. -/
def lastSplit (m s : Str) : Option (Str × Str) :=
  match lastIndexOf m s with
  | none => none
  | some i => some (s.take i, s.drop (i + m.length))

/-- The diagnostic line prefix literal `rpki-client: `. -/
def rpkiTok : Str := str "rpki-client: "

/-- `re.match` of `rpki-client: (?P<g>.*)MID` (unanchored, optionally followed
by `.*`): the group captures up to the last occurrence of `MID`. -/
def matchMid (mid s : Str) : Option Str :=
  if rpkiTok.isPrefixOf s then (lastSplit mid (s.drop rpkiTok.length)).map Prod.fst
  else none

/-- `re.match` of `rpki-client: (?P<g>.*)MID(?P<h>.*)` — both groups. -/
def matchMid2 (mid s : Str) : Option (Str × Str) :=
  if rpkiTok.isPrefixOf s then lastSplit mid (s.drop rpkiTok.length)
  else none

/-- `re.match` of `rpki-client: (?P<g>.*)MID$`. -/
def matchMidEnd (mid s : Str) : Option Str :=
  if rpkiTok.isPrefixOf s then
    let r := s.drop rpkiTok.length
    if mid.isSuffixOf r then some (r.take (r.length - mid.length)) else none
  else none

/-- `re.match` of `rpki-client: (?P<g>[^:]+)MID` where `MID` starts with `:`
(all uses do), so the group is exactly the colon-free run. -/
def matchNoColon (mid s : Str) : Option Str :=
  if rpkiTok.isPrefixOf s then
    let r := s.drop rpkiTok.length
    let g := r.takeWhile (fun c => c ≠ ':')
    if g.length ≠ 0 && mid.isPrefixOf (r.drop g.length) then some g else none
  else none

/-- `re.match` of `rpki-client: (?P<g>.*)MID[0-9]+` (unanchored): group up to
the last occurrence of `MID` followed by at least one digit. -/
def matchMidNum (mid s : Str) : Option Str :=
  if rpkiTok.isPrefixOf s then
    let r := s.drop rpkiTok.length
    (((List.range (r.length + 1)).filter (fun i =>
        occursAt mid r i && ((r.drop (i + mid.length)).headD 'x').isDigit)).getLast?).map
      fun i => r.take i
  else none

/-- `re.match` of `rpki-client: (?P<g>.*)MID[0-9]+LIT...` (unanchored): group up
to the last occurrence of `MID` followed by a nonempty digit run and then
the literal `LIT`. -/
def matchMidNumLit (mid lit s : Str) : Option Str :=
  if rpkiTok.isPrefixOf s then
    let r := s.drop rpkiTok.length
    (((List.range (r.length + 1)).filter (fun i =>
        occursAt mid r i &&
          (let t := (r.drop (i + mid.length)).takeWhile Char.isDigit
           t.length ≠ 0 && lit.isPrefixOf ((r.drop (i + mid.length)).drop t.length)))).getLast?).map
      fun i => r.take i
  else none

/-- `re.match` of `rpki-client: (?P<g>.*)MID(?P<n>[0-9]+)TAIL$` (e.g.
`downloading (\d+) deltas$`): returns the group and the digit run. -/
def matchMidNumEnd (mid tail s : Str) : Option (Str × Str) :=
  if rpkiTok.isPrefixOf s then
    let r := s.drop rpkiTok.length
    if tail.isSuffixOf r then
      let core := r.take (r.length - tail.length)
      match ((List.range (core.length + 1)).filter (fun i =>
          occursAt mid core i &&
            (let t := core.drop (i + mid.length)
             t.length ≠ 0 && t.all Char.isDigit))).getLast? with
      | none => none
      | some i => some (core.take i, core.drop (i + mid.length))
    else none
  else none

/-- `re.match` of
`rpki-client: (?P<uri>.*)MID(?P<a>[0-9]+) to (?P<b>[0-9]+)` (unanchored,
`SYNC_RRDP_SERIAL_DECREASED`): returns `(uri, a, b)`. -/
def matchSerial (mid s : Str) : Option (Str × Str × Str) :=
  if rpkiTok.isPrefixOf s then
    let r := s.drop rpkiTok.length
    let ok : Nat → Bool := fun i =>
      occursAt mid r i &&
        (let t := r.drop (i + mid.length)
         let a := t.takeWhile Char.isDigit
         a.length ≠ 0 && (str " to ").isPrefixOf (t.drop a.length) &&
           ((t.drop (a.length + 4)).headD 'x').isDigit)
    match ((List.range (r.length + 1)).filter ok).getLast? with
    | none => none
    | some i =>
      let t := r.drop (i + mid.length)
      let a := t.takeWhile Char.isDigit
      let b := (t.drop (a.length + 4)).takeWhile Char.isDigit
      some (r.take i, a, b)
  else none

/-- Numeric value of a digit run (Python `int(...)` on a `[0-9]+` capture). -/
def digitsToNat (s : Str) : Nat :=
  s.foldl (fun acc c => acc * 10 + (c.toNat - '0'.toNat)) 0

/-! ## Data model (`rpkiclientweb/models.py`) -/

/-- Python exception classes that the embedded code can raise. -/
inductive PyErr
  | valueError
  | indexError
  | nameError
  | attributeError
deriving DecidableEq, Repr

/-- `datetime.datetime` restricted to the components `strptime` produces
here (no timezone; microseconds are zero). -/
structure DateTime where
  year : Nat
  month : Nat
  day : Nat
  hour : Nat
  minute : Nat
  second : Nat
deriving DecidableEq, Repr

/-- The union `RPKIClientWarning = Union[LabelWarning, ExpirationWarning,
ManifestObjectWarning]` of `models.py`, as a tagged union. -/
inductive Warning
  | labelWarning (warning_type : Str) (uri : Str)
  | expirationWarning (warning_type : Str) (uri : Str) (expiration : DateTime)
  | manifestObjectWarning (warning_type : Str) (uri : Str) (object_name : Str)
deriving DecidableEq, Repr

/-- `warning_type` field, shared by all three variants. -/
def Warning.warningType : Warning → Str
  | .labelWarning t _ => t
  | .expirationWarning t _ _ => t
  | .manifestObjectWarning t _ _ => t

/-- `uri` field, shared by all three variants. -/
def Warning.uri : Warning → Str
  | .labelWarning _ u => u
  | .expirationWarning _ u _ => u
  | .manifestObjectWarning _ u _ => u

/-- The literal `.rsync/` cache path marker. -/
def dotRsync : Str := str ".rsync/"

/-- `FetchStatus` dataclass of `models.py`. -/
structure FetchStatus where
  uri : Str
  type : Str
  count : Int
deriving DecidableEq, Repr

/-- `FetchStatus.__init__` followed by `__post_init__` (`models.py` lines
6-21): a uri starting with `.rsync/` is stored rewritten to start with
`rsync://` (the slice `uri[7:]` drops the 7-character marker). -/
def mkFetchStatus (uri type : Str) (count : Int := 1) : FetchStatus :=
  { uri := if dotRsync.isPrefixOf uri then str "rsync://" ++ uri.drop 7 else uri
    type := type
    count := count }

/-- `ManifestObjectWarning.__init__` followed by `__post_init__`
(`models.py` lines 39-54): strip one leading `.rsync/`, then truncate at
the first `#` (`self.uri.split("#")[0]`). -/
def mkManifestObjectWarning (warning_type uri object_name : Str) : Warning :=
  let u1 := if dotRsync.isPrefixOf uri then uri.drop 7 else uri
  let u2 := if u1.contains '#' then u1.takeWhile (fun c => c ≠ '#') else u1
  .manifestObjectWarning warning_type u2 object_name

/-- `MissingLabel` named tuple. -/
structure MissingLabel where
  warning_type : Str
  hostname : Str
deriving DecidableEq, Repr

/-- `WarningSummary` named tuple. -/
structure WarningSummary where
  warning_type : Str
  hostname : Str
  count : Nat
deriving DecidableEq, Repr

/-- `RpkiClientError` named tuple. -/
structure RpkiClientError where
  warning_type : Str
deriving DecidableEq, Repr

/-! ## `datetime.strptime(expiry, "%b %d %H:%M:%S %Y GMT")`

CPython compiles the format to a regex: `%b` is the case-insensitive
month-abbreviation alternation, `%d` is `3[01]|[12]\d|0[1-9]|[1-9]`,
`%H` is `2[0-3]|[0-1]\d|\d`, `%M` is `[0-5]\d|\d`, `%S` is
`6[0-1]|[0-5]\d|\d`, `%Y` is `\d\d\d\d`, literal whitespace matches
`\s+`, and any unconverted trailing data raises `ValueError`; the final
`datetime(...)` constructor additionally validates the field ranges
(day against the month length, seconds below 60). -/

/-- Lower-cased month abbreviations, as matched by `%b`. -/
def monthAbbrs : List (Str × Nat) :=
  [(str "jan", 1), (str "feb", 2), (str "mar", 3), (str "apr", 4),
   (str "may", 5), (str "jun", 6), (str "jul", 7), (str "aug", 8),
   (str "sep", 9), (str "oct", 10), (str "nov", 11), (str "dec", 12)]

/-- Parse `%b`: three characters, compared lower-cased. -/
def parseMonthAbbr (s : Str) : Option (Nat × Str) :=
  let key := (s.take 3).map Char.toLower
  (monthAbbrs.findSome? fun p => if p.1 = key then some p.2 else none).map
    fun n => (n, s.drop 3)

/-- Literal whitespace in the format: `\s+` (at least one). -/
def skipWs (s : Str) : Option Str :=
  let w := s.takeWhile Char.isWhitespace
  if w.length = 0 then none else some (s.drop w.length)

/-- Digit value of a character. -/
def dval (c : Char) : Nat := c.toNat - '0'.toNat

/-- Parse `%d` = `3[01]|[12]\d|0[1-9]|[1-9]` (alternatives in this order). -/
def parseDay (s : Str) : Option (Nat × Str) :=
  match s with
  | c1 :: c2 :: rest =>
    if c1 = '3' && (c2 = '0' || c2 = '1') then some (30 + dval c2, rest)
    else if (c1 = '1' || c1 = '2') && c2.isDigit then some (dval c1 * 10 + dval c2, rest)
    else if c1 = '0' && c2.isDigit && c2 ≠ '0' then some (dval c2, rest)
    else if c1.isDigit && c1 ≠ '0' then some (dval c1, c2 :: rest)
    else none
  | [c1] => if c1.isDigit && c1 ≠ '0' then some (dval c1, []) else none
  | [] => none

/-- Parse `%H` = `2[0-3]|[0-1]\d|\d`. -/
def parseHour (s : Str) : Option (Nat × Str) :=
  match s with
  | c1 :: c2 :: rest =>
    if c1 = '2' && c2.isDigit && dval c2 ≤ 3 then some (20 + dval c2, rest)
    else if (c1 = '0' || c1 = '1') && c2.isDigit then some (dval c1 * 10 + dval c2, rest)
    else if c1.isDigit then some (dval c1, c2 :: rest)
    else none
  | [c1] => if c1.isDigit then some (dval c1, []) else none
  | [] => none

/-- Parse `%M` = `[0-5]\d|\d`. -/
def parseMinute (s : Str) : Option (Nat × Str) :=
  match s with
  | c1 :: c2 :: rest =>
    if c1.isDigit && dval c1 ≤ 5 && c2.isDigit then some (dval c1 * 10 + dval c2, rest)
    else if c1.isDigit then some (dval c1, c2 :: rest)
    else none
  | [c1] => if c1.isDigit then some (dval c1, []) else none
  | [] => none

/-- Parse `%S` = `6[0-1]|[0-5]\d|\d`. -/
def parseSecond (s : Str) : Option (Nat × Str) :=
  match s with
  | c1 :: c2 :: rest =>
    if c1 = '6' && (c2 = '0' || c2 = '1') then some (60 + dval c2, rest)
    else if c1.isDigit && dval c1 ≤ 5 && c2.isDigit then some (dval c1 * 10 + dval c2, rest)
    else if c1.isDigit then some (dval c1, c2 :: rest)
    else none
  | [c1] => if c1.isDigit then some (dval c1, []) else none
  | [] => none

/-- Parse `%Y` = exactly four digits. -/
def parseYear (s : Str) : Option (Nat × Str) :=
  match s with
  | a :: b :: c :: d :: rest =>
    if a.isDigit && b.isDigit && c.isDigit && d.isDigit then
      some (((dval a * 10 + dval b) * 10 + dval c) * 10 + dval d, rest)
    else none
  | _ => none

/-- Gregorian leap year. -/
def isLeap (y : Nat) : Bool := y % 4 = 0 && (y % 100 ≠ 0 || y % 400 = 0)

/-- Length of a month. -/
def daysInMonth (y m : Nat) : Nat :=
  if m = 2 then (if isLeap y then 29 else 28)
  else if m = 4 || m = 6 || m = 9 || m = 11 then 30
  else 31

/-- Expect the literal `GMT` and the end of the string. -/
def expectGmtEnd (s : Str) : Bool := s = str "GMT"

/-- `datetime.strptime(s, "%b %d %H:%M:%S %Y GMT")`: `.error .valueError`
models the `ValueError` CPython raises on a non-matching string or an
out-of-range date. -/
def strptimeGmt (s : Str) : Except PyErr DateTime := do
  let some (mon, s) := parseMonthAbbr s | .error .valueError
  let some s := skipWs s | .error .valueError
  let some (day, s) := parseDay s | .error .valueError
  let some s := skipWs s | .error .valueError
  let some (hour, s) := parseHour s | .error .valueError
  let (':' :: s) := s | .error .valueError
  let some (minute, s) := parseMinute s | .error .valueError
  let (':' :: s) := s | .error .valueError
  let some (second, s) := parseSecond s | .error .valueError
  let some s := skipWs s | .error .valueError
  let some (year, s) := parseYear s | .error .valueError
  let some s := skipWs s | .error .valueError
  if expectGmtEnd s then
    -- datetime() constructor validation
    if 1 ≤ year && 1 ≤ day && day ≤ daysInMonth year mon && hour ≤ 23 &&
        minute ≤ 59 && second ≤ 59 then
      .ok { year := year, month := mon, day := day,
            hour := hour, minute := minute, second := second }
    else .error .valueError
  else .error .valueError

/-- `re.match` of `rpki-client: (?P<g>.*)MID.+` (unanchored, at least one
character after `MID`): group up to the last such occurrence of `MID`. -/
def matchMidPlus (mid s : Str) : Option Str :=
  if rpkiTok.isPrefixOf s then
    let r := s.drop rpkiTok.length
    (((List.range (r.length + 1)).filter (fun i =>
        occursAt mid r i && (r.drop (i + mid.length)).length ≠ 0)).getLast?).map
      fun i => r.take i
  else none

/-- The apostrophe character (kept out of string literals). -/
def apos : Char := Char.ofNat 39

/-! ## `rpkiclientweb/util/misc.py` -/

namespace UtilMisc

/-- Python `str.split(sep)` for a one-character separator: `"".split` gives
`[""]`, and empty segments are kept. -/
def splitChar (sep : Char) : Str → List Str
  | [] => [[]]
  | c :: cs =>
    match splitChar sep cs with
    | [] => [[c]]
    | t :: ts => if c = sep then [] :: t :: ts else (c :: t) :: ts

/-- `"/".join(uri_tokens)`. -/
def joinSlash : List Str → Str
  | [] => []
  | [t] => t
  | t :: ts => t ++ '/' :: joinSlash ts

/-- CPython `urlsplit` removes tab, CR and LF from the url before parsing. -/
def stripUnsafe (u : Str) : Str :=
  u.filter (fun c => c ≠ '\t' && c ≠ '\r' && c ≠ '\n')

/-- After `//`, the netloc extends to the first `/`, `?` or `#`. -/
def netlocOf (u : Str) : Str :=
  u.takeWhile (fun c => c ≠ '/' && c ≠ '?' && c ≠ '#')

/-- `urllib.parse.urlparse("//" ++ rest).netloc`: the argument starts with
`//` (so it is parsed as a netloc-carrying relative reference); CPython
raises `ValueError` on a netloc with an unbalanced square bracket. -/
def urlparseNetloc (rest : Str) : Except PyErr Str :=
  let n := netlocOf (stripUnsafe rest)
  if (n.contains '[' && !n.contains ']') || (n.contains ']' && !n.contains '[') then
    .error .valueError
  else .ok n

/-- `parse_host` (`util/misc.py` lines 42-70).  The dead initialisation
`uri_tokens = ["unknown"]` of the source is overwritten on every path and
is omitted.  Note the source special-cases `rrdp`, `.rrdp` and `rsync`
first segments but not `.rsync`. -/
def parse_host (incomplete_uri : Str) : Except PyErr Str :=
  let tokens := splitChar '/' incomplete_uri
  if tokens.length < 2 then .error .valueError
  else
    let uri_tokens :=
      if tokens.headD [] = str "rrdp" || tokens.headD [] = str ".rrdp" then tokens.drop 2
      else if tokens.headD [] = str "rsync" then tokens.drop 1
      else tokens
    urlparseNetloc (joinSlash uri_tokens)

/-- Outcome of one iteration of the `repeat` scheduling loop for a tick
whose body would take `run_duration` seconds. -/
structure RepeatTick where
  /-- Whether `func` ran to completion (`asyncio.wait_for` did not cancel it). -/
  completed : Bool
  /-- Time from this iteration's start to the next iteration's start. -/
  cadence : Nat
deriving DecidableEq, Repr

/-- One iteration of `repeat` (`util/misc.py` lines 32-39), in a discrete
time model.  `await asyncio.wait_for(func(...), interval)` returns after
`run_duration` when `run_duration ≤ interval`; otherwise it *cancels* the
inner coroutine when `interval` elapses and raises `TimeoutError`, and the
`except` arm skips the `sleep`, so the loop starts the next invocation
immediately.  In the normal arm `elapsed = run_duration` and the loop
sleeps `interval - elapsed` before the next invocation. -/
def repeatTick (interval : Nat) (run_duration : Nat) : RepeatTick :=
  if run_duration ≤ interval then
    let elapsed := run_duration
    { completed := true, cadence := run_duration + (interval - elapsed) }
  else
    { completed := false, cadence := interval }

end UtilMisc

/-! ## `rpkiclientweb/outputparser.py` (legacy classifier) -/

namespace Outputparser

/-- `r"rpki-client: (?P<path>.*): bad message digest for (?P<object>.*)"` -/
def FILE_BAD_MESSAGE_DIGEST_RE (s : Str) : Option (Str × Str) :=
  matchMid2 (str ": bad message digest for ") s

/-- `r"rpki-client: (?P<path>.*): unsupported file type for (?P<object>.*)"` -/
def FILE_UNSUPPORTED_FILETYPE_RE (s : Str) : Option (Str × Str) :=
  matchMid2 (str ": unsupported file type for ") s

/-- `r"rpki-client: (?P<path>.*): mft expired on (?P<expiry>.*)"` -/
def FILE_EXPIRED_MANIFEST_RE (s : Str) : Option (Str × Str) :=
  matchMid2 (str ": mft expired on ") s

/-- `r"rpki-client: (?P<path>.*): no valid mft available"` -/
def FILE_NO_MANIFEST_AVAILABLE_RE (s : Str) : Option Str :=
  matchMid (str ": no valid mft available") s

/-- `r"rpki-client: (?P<path>.*): mft not yet valid (?P<expiry>.*)"` -/
def FILE_NOT_YET_VALID_RE (s : Str) : Option (Str × Str) :=
  matchMid2 (str ": mft not yet valid ") s

/-- `r"rpki-client: (?P<path>.*): bad update interval.*"` -/
def FILE_BAD_UPDATE_INTERVAL_RE (s : Str) : Option Str :=
  matchMid (str ": bad update interval") s

/-- `r"rpki-client: (?P<path>.*): No such file or directory"` -/
def FILE_MISSING_FILE_RE (s : Str) : Option Str :=
  matchMid (str ": No such file or directory") s

/-- `r"rpki-client: (?P<uri>.*): pulling from network"` -/
def PULLING_RE (s : Str) : Option Str :=
  matchMid (str ": pulling from network") s

/-- `r"rpki-client: (?P<uri>.*): loaded from network"` -/
def PULLED_RE (s : Str) : Option Str :=
  matchMid (str ": loaded from network") s

/-- `r"rpki-client: rsync (?P<uri>.*) failed$"` -/
def SYNC_RSYNC_LOAD_FAILED (s : Str) : Option Str :=
  let pfx := str "rpki-client: rsync "
  if pfx.isPrefixOf s then
    let r := s.drop pfx.length
    if (str " failed").isSuffixOf r then some (r.take (r.length - 7)) else none
  else none

/-- `r"rpki-client: (?P<uri>.*): load from network failed, fallback to rsync$"` -/
def SYNC_RSYNC_FALLBACK (s : Str) : Option Str :=
  matchMidEnd (str ": load from network failed, fallback to rsync") s

/-- `r"rpki-client: (?P<uri>.*): load from network failed, fallback to cache$"` -/
def SYNC_CACHE_FALLBACK (s : Str) : Option Str :=
  matchMidEnd (str ": load from network failed, fallback to cache") s

/-- `r"rpki-client: (?P<uri>.*): notification file not modified$"` -/
def SYNC_RSYNC_RRDP_NOT_MODIFIED (s : Str) : Option Str :=
  matchMidEnd (str ": notification file not modified") s

/-- `r"rpki-client: (?P<uri>.*): repository not modified$"` -/
def SYNC_RRDP_REPOSITORY_NOT_MODIFIED (s : Str) : Option Str :=
  matchMidEnd (str ": repository not modified") s

/-- `r"rpki-client: (?P<uri>.*): downloading snapshot$"` -/
def SYNC_RSYNC_RRDP_SNAPSHOT (s : Str) : Option Str :=
  matchMidEnd (str ": downloading snapshot") s

/-- `r"rpki-client: (?P<uri>.*): downloading (?P<count>\d+) deltas$"` -/
def SYNC_RSYNC_RRDP_DELTAS (s : Str) : Option (Str × Str) :=
  matchMidNumEnd (str ": downloading ") (str " deltas") s

/-- `r"rpki-client: (?P<uri>.*): parse error at line [0-9]+: parsing aborted"` -/
def SYNC_RRDP_PARSE_ABORTED (s : Str) : Option Str :=
  matchMidNumLit (str ": parse error at line ") (str ": parsing aborted") s

/-- `r"rpki-client: (?P<uri>.*): serial number decreased from (?P<previous>[0-9]+) to (?P<current>[0-9]+)"` -/
def SYNC_RRDP_SERIAL_DECREASED (s : Str) : Option (Str × Str × Str) :=
  matchSerial (str ": serial number decreased from ") s

/-- `r"rpki-client: (?P<uri>.*): TLS handshake: certificate verification failed:.*"` -/
def SYNC_RRDP_TLS_CERTIFICATE_VERIFICATION_FAILED (s : Str) : Option Str :=
  matchMid (str ": TLS handshake: certificate verification failed:") s

/-- `r"rpki-client: parse failed - content too big"` (no group). -/
def SYNC_RRDP_CONTENT_TOO_BIG (s : Str) : Bool :=
  (str "rpki-client: parse failed - content too big").isPrefixOf s

/-- `r"rpki-client: (?P<path>.*): RFC 6487 section 4.8.8: missing SIA"`
(the unescaped dots of `4.8.8` modelled as literal dots). -/
def FILE_MISSING_SIA_RE (s : Str) : Option Str :=
  matchMid (str ": RFC 6487 section 4.8.8: missing SIA") s

/-- The literal tail of `FILE_RESOURCE_OVERCLAIMING_RE`, containing an
apostrophe. -/
def overclaimingMid : Str :=
  str ": RFC 3779 resource not subset of parent" ++ [apos] ++ str "s resources"

/-- `r"rpki-client: (?P<path>.*): RFC 3779 resource not subset of parent's resources"` -/
def FILE_RESOURCE_OVERCLAIMING_RE (s : Str) : Option Str :=
  matchMid overclaimingMid s

/-- `r"rpki-client: (?P<path>.*): certificate revoked"` -/
def FILE_REVOKED_CERTIFICATE_RE (s : Str) : Option Str :=
  matchMid (str ": certificate revoked") s

/-- Match helper for the two `has vanished` rsync lines (their prefix is not
`rpki-client: `). -/
def vanishedMatch (pfx : Str) (s : Str) : Option Str :=
  if pfx.isPrefixOf s then
    (lastSplit (str "\" (in repo)") (s.drop pfx.length)).map Prod.fst
  else none

/-- `r"file has vanished: \"(?P<path>.*)\" \(in repo\)"` -/
def VANISHED_FILE_RE (s : Str) : Option Str :=
  vanishedMatch (str "file has vanished: \"") s

/-- `r"directory has vanished: \"(?P<path>.*)\" \(in repo\)"` -/
def VANISHED_DIRECTORY_RE (s : Str) : Option Str :=
  vanishedMatch (str "directory has vanished: \"") s

/-- `INTERTWINED_LINE_RE = r"^rpki-client: .*rpki-client: .*$"`: the line
starts with the prefix token and contains it a second time. -/
def INTERTWINED_LINE_RE (s : Str) : Bool :=
  rpkiTok.isPrefixOf s && (lastIndexOf rpkiTok (s.drop rpkiTok.length)).isSome

/-- `parse_maybe_warning_line` (`outputparser.py` lines 99-160).  The source
is a generator without early returns, so *every* matching branch yields.
Three slips in the source are modelled as the exceptions CPython raises:

* lines 128-133: `yield Labelwarning(...)` — the name `Labelwarning` is
  undefined (the class is `LabelWarning`), so a line matching
  `FILE_BAD_UPDATE_INTERVAL_RE` raises `NameError` (evaluating the callee
  happens before its arguments, so the also-unbound `bad_message_digest`
  is never reached);
* lines 143-150: the `not_yet_valid` branch reads
  `expired_manifest.group("path")`; when `FILE_EXPIRED_MANIFEST_RE` did not
  match, `expired_manifest` is `None` and `.group` raises `AttributeError`;
* `datetime.strptime` raises `ValueError` on a malformed timestamp.

A raise aborts the generator: events already yielded stay delivered and
the remaining branches are skipped. -/
def parse_maybe_warning_line (line : Str) : List Warning × Option PyErr := Id.run do
  let mut acc : List Warning := []
  if let some p := FILE_MISSING_FILE_RE line then
    acc := acc ++ [.labelWarning (str "missing_file") p]
  if let some p := FILE_RESOURCE_OVERCLAIMING_RE line then
    acc := acc ++ [.labelWarning (str "overclaiming") p]
  if let some p := FILE_REVOKED_CERTIFICATE_RE line then
    acc := acc ++ [.labelWarning (str "revoked_certificate") p]
  if let some (p, o) := FILE_UNSUPPORTED_FILETYPE_RE line then
    acc := acc ++ [mkManifestObjectWarning (str "unsupported_filetype") p o]
  if let some p := FILE_NO_MANIFEST_AVAILABLE_RE line then
    acc := acc ++ [.labelWarning (str "no_valid_mft_available") p]
  if let some p := FILE_MISSING_SIA_RE line then
    acc := acc ++ [.labelWarning (str "missing_sia") p]
  if (FILE_BAD_UPDATE_INTERVAL_RE line).isSome then
    return (acc, some .nameError)
  let expired := FILE_EXPIRED_MANIFEST_RE line
  if let some (p, e) := expired then
    match strptimeGmt e with
    | .error err => return (acc, some err)
    | .ok d => acc := acc ++ [.expirationWarning (str "expired_manifest") p d]
  if let some (_, e) := FILE_NOT_YET_VALID_RE line then
    match expired with
    | none => return (acc, some .attributeError)
    | some (p8, _) =>
      match strptimeGmt e with
      | .error err => return (acc, some err)
      | .ok d => acc := acc ++ [.expirationWarning (str "not_yet_valid_manifest") p8 d]
  if let some (p, o) := FILE_BAD_MESSAGE_DIGEST_RE line then
    acc := acc ++ [mkManifestObjectWarning (str "bad_message_digest") p o]
  return (acc, none)

/-- Outcome of iterating `OutputParser.warnings` to exhaustion. -/
structure WarnOut where
  /-- The events yielded (in order) before exhaustion or an uncaught raise. -/
  events : List Warning
  /-- `RPKI_CLIENT_WEB_PARSE_ERROR{type="parse_warnings"}` increments. -/
  parseErrors : Nat
  /-- An exception that escaped the iteration, if any. -/
  uncaught : Option PyErr
deriving DecidableEq, Repr

/-- `OutputParser.warnings` (`outputparser.py` lines 175-183) over the
(already filtered) lines: per line, `parse_maybe_warning_line` runs under
`except (ValueError, IndexError)`, which logs and counts the parse error
and continues; any other exception propagates and aborts the iteration. -/
def warningsList : List Str → WarnOut
  | [] => ⟨[], 0, none⟩
  | l :: ls =>
    match parse_maybe_warning_line l with
    | (ws, none) =>
      let rest := warningsList ls
      ⟨ws ++ rest.events, rest.parseErrors, rest.uncaught⟩
    | (ws, some e) =>
      if e = .valueError || e = .indexError then
        let rest := warningsList ls
        ⟨ws ++ rest.events, rest.parseErrors + 1, rest.uncaught⟩
      else ⟨ws, 0, some e⟩

/-- `OutputParser.pulling`: frozenset of `PULLING_RE` captures. -/
def pulling (lines : List Str) : Finset Str :=
  (lines.filterMap PULLING_RE).toFinset

/-- `OutputParser.pulled`: frozenset of `PULLED_RE` captures. -/
def pulled (lines : List Str) : Finset Str :=
  (lines.filterMap PULLED_RE).toFinset

/-- One line of `OutputParser.fetch_status` (`outputparser.py` lines
207-281): the if/continue chain, first matching rule wins.  The per-line
`except Exception` arm is unreachable in the model because no branch can
raise (the `int(...)` conversions are applied to `\d+` captures). -/
def fetchStatusLine (line : Str) : Option FetchStatus :=
  if let some u := SYNC_RRDP_TLS_CERTIFICATE_VERIFICATION_FAILED line then
    some (mkFetchStatus u (str "rrdp_tls_certificate_verification_failed"))
  else if let some u := SYNC_RRDP_PARSE_ABORTED line then
    some (mkFetchStatus u (str "rrdp_parse_aborted"))
  else if SYNC_RRDP_CONTENT_TOO_BIG line then
    some (mkFetchStatus (str "<unknown>") (str "rrdp_parse_error_file_too_big"))
  else if let some u := SYNC_RSYNC_FALLBACK line then
    some (mkFetchStatus u (str "rrdp_rsync_fallback") 1)
  else if let some u := SYNC_CACHE_FALLBACK line then
    some (mkFetchStatus u (str "sync_fallback_to_cache"))
  else if let some u := SYNC_RSYNC_LOAD_FAILED line then
    some (mkFetchStatus u (str "rsync_load_failed") 1)
  else if let some u := SYNC_RSYNC_RRDP_NOT_MODIFIED line then
    some (mkFetchStatus u (str "rrdp_notification_not_modified") 1)
  else if let some u := SYNC_RRDP_REPOSITORY_NOT_MODIFIED line then
    some (mkFetchStatus u (str "rrdp_repository_not_modified") 1)
  else if let some u := SYNC_RSYNC_RRDP_SNAPSHOT line then
    some (mkFetchStatus u (str "rrdp_snapshot") 1)
  else if let some p := SYNC_RSYNC_RRDP_DELTAS line then
    some (mkFetchStatus p.1 (str "rrdp_delta") (digitsToNat p.2))
  else if let some p := SYNC_RRDP_SERIAL_DECREASED line then
    some (mkFetchStatus p.1 (str "rrdp_serial_decreased")
      ((digitsToNat p.2.1 : Int) - (digitsToNat p.2.2 : Int)))
  else none

/-- `OutputParser.fetch_status` over the filtered lines. -/
def fetch_status (lines : List Str) : List FetchStatus :=
  lines.filterMap fetchStatusLine

/-- `OutputParser.vanished_files`. -/
def vanished_files (lines : List Str) : Finset Str :=
  (lines.filterMap VANISHED_FILE_RE).toFinset

/-- `OutputParser.vanished_directories`. -/
def vanished_directories (lines : List Str) : Finset Str :=
  (lines.filterMap VANISHED_DIRECTORY_RE).toFinset

/-- The line filter of `OutputParser.__init__` (`outputparser.py` lines
168-173): drop every line matched by `INTERTWINED_LINE_RE`. -/
def filterLines (ls : List Str) : List Str :=
  ls.filter (fun l => !INTERTWINED_LINE_RE l)

/-- `OutputParser.__init__`: split the stderr text on newlines and filter
out intertwined lines; `self.lines`. -/
def outputParserLines (stderr_output : Str) : List Str :=
  filterLines (UtilMisc.splitChar '\n' stderr_output)

/-- `collections.Counter` over key pairs, keeping Python's insertion
(first-occurrence) order. -/
def countPairs (ks : List (Str × Str)) : List ((Str × Str) × Nat) :=
  ks.foldl (fun acc k =>
    if acc.any (fun p => p.1 = k) then
      acc.map (fun p => if p.1 = k then (p.1, p.2 + 1) else p)
    else acc ++ [(k, 1)]) []

/-- `OutputParser.statistics_by_host` (`outputparser.py` lines 305-314),
applied to an already-materialised warning list: `Counter` over
`(warning_type, parse_host(uri))`; `parse_host` raises `ValueError` on a
slash-free uri and nothing catches it here. -/
def statistics_by_host (ws : List Warning) : Except PyErr (List WarningSummary) := do
  let keys ← ws.mapM (fun w => do
    let h ← UtilMisc.parse_host w.uri
    pure (w.warningType, h))
  pure ((countPairs keys).map fun p => ⟨p.1.1, p.1.2, p.2⟩)

/-- The key of a summary, as built twice in `missing_labels`. -/
def summaryLabel (w : WarningSummary) : MissingLabel :=
  ⟨w.warning_type, w.hostname⟩

/-- `missing_labels` (`outputparser.py` lines 317-328): the set difference
of the `(warning_type, hostname)` key sets. -/
def missing_labels (lhs rhs : List WarningSummary) : Finset MissingLabel :=
  (lhs.map summaryLabel).toFinset \ (rhs.map summaryLabel).toFinset

end Outputparser

/-! ## `rpkiclientweb/parsing.py` (current classifier) -/

namespace Parsing

/-- `r"rpki-client: (?P<path>.*): No such file or directory"` -/
def FILE_MISSING_FILE_RE (s : Str) : Option Str :=
  matchMid (str ": No such file or directory") s

/-- `r"rpki-client: (?P<path>.*): RFC 3779 resource not subset of parent's resources"` -/
def FILE_RESOURCE_OVERCLAIMING_RE (s : Str) : Option Str :=
  matchMid Outputparser.overclaimingMid s

/-- `r"rpki-client: (?P<path>[^:]+): certificate has expired"` -/
def FILE_CERTIFICATE_EXPIRED (s : Str) : Option Str :=
  matchNoColon (str ": certificate has expired") s

/-- `r"rpki-client: (?P<path>[^:]+): certificate is not yet valid"` -/
def FILE_CERTIFICATE_NOT_YET_VALID_RE (s : Str) : Option Str :=
  matchNoColon (str ": certificate is not yet valid") s

/-- `r"rpki-client: (?P<path>[^:]+): certificate revoked"` -/
def FILE_CERTIFICATE_REVOKED_RE (s : Str) : Option Str :=
  matchNoColon (str ": certificate revoked") s

/-- `r"rpki-client: (?P<path>.*): unable to get local issuer certificate"` -/
def FILE_CERTIFICATE_UNABLE_TO_GET_LOCAL_ISSUER (s : Str) : Option Str :=
  matchMid (str ": unable to get local issuer certificate") s

/-- `r"rpki-client: (?P<path>.*): RFC 6487: duplicate SKI"` -/
def FILE_CERTIFICATE_6487_DUPLICATE_SKI (s : Str) : Option Str :=
  matchMid (str ": RFC 6487: duplicate SKI") s

/-- `r"rpki-client: (?P<path>.*): RFC 6487: uncovered IP:.+"` -/
def FILE_CERTIFICATE_6487_UNCOVERED_IP (s : Str) : Option Str :=
  matchMidPlus (str ": RFC 6487: uncovered IP:") s

/-- `r"rpki-client: (?P<path>.*): RFC 6487:.*"` — the generic 6487 rule,
ordered after the specific 6487 rules. -/
def FILE_CERTIFICATE_6487_OTHER_ERROR (s : Str) : Option Str :=
  matchMid (str ": RFC 6487:") s

/-- `r"rpki-client: (?P<path>.*): both possibilities of file present"` -/
def FILE_BOTH_POSSIBILITES_PRESENT (s : Str) : Option Str :=
  matchMid (str ": both possibilities of file present") s

/-- `r"rpki-client: (?P<path>.*): no valid mft available"` -/
def FILE_MFT_NOT_AVAILABLE_RE (s : Str) : Option Str :=
  matchMid (str ": no valid mft available") s

/-- `r"rpki-client: (?P<path>.*): CRL has expired"` -/
def FILE_MFT_CRL_EXPIRED_RE (s : Str) : Option Str :=
  matchMid (str ": CRL has expired") s

/-- `r"rpki-client: (?P<path>.*): failed fetch, continuing with #[0-9]+"` -/
def FILE_MFT_FAILED_FETCH_RE (s : Str) : Option Str :=
  matchMidNum (str ": failed fetch, continuing with #") s

/-- `r"rpki-client: (?P<path>.*): unexpected manifest number.*"` -/
def FILE_MFT_UNEXPECTED_NUMBER_RE (s : Str) : Option Str :=
  matchMid (str ": unexpected manifest number") s

/-- `r"rpki-client: (?P<path>.*): manifest misissuance, #[0-9]+ was recycled"` -/
def FILE_MFT_MISISSUANCE_RECYCLED_RE (s : Str) : Option Str :=
  matchMidNumLit (str ": manifest misissuance, #") (str " was recycled") s

/-- `r"rpki-client: (?P<path>.*): unable to get certificate CRL"` -/
def FILE_MFT_MISSING_CRL_RE (s : Str) : Option Str :=
  matchMid (str ": unable to get certificate CRL") s

/-- `r"rpki-client: (?P<path>.*): RFC 6487 section 4.8.8: missing SIA"` -/
def FILE_MISSING_SIA_RE (s : Str) : Option Str :=
  matchMid (str ": RFC 6487 section 4.8.8: missing SIA") s

/-- `r"rpki-client: (?P<path>.*): RFC 6488: CMS has unexpected signed attribute (?P<attribute>.*)"`
(only the `path` group is used). -/
def FILE_CMS_UNEXPECTED_SIGNED_ATTRIBUTE (s : Str) : Option Str :=
  matchMid (str ": RFC 6488: CMS has unexpected signed attribute ") s

/-- `r"rpki-client: (?P<path>[^:]+): ASPA: failed to parse ASProviderAttestation"` -/
def FILE_ASPA_PARSE_FAILED (s : Str) : Option Str :=
  matchNoColon (str ": ASPA: failed to parse ASProviderAttestation") s

/-- `r"rpki-client: (?P<path>.*): unsupported file type for (?P<object>.*)"` -/
def FILE_UNSUPPORTED_FILETYPE_RE (s : Str) : Option (Str × Str) :=
  matchMid2 (str ": unsupported file type for ") s

/-- `r"rpki-client: (?P<path>.*): bad update interval.*"` -/
def FILE_BAD_UPDATE_INTERVAL_RE (s : Str) : Option Str :=
  matchMid (str ": bad update interval") s

/-- `r"rpki-client: (?P<path>.*): mft expired on (?P<expiry>.*)"` -/
def FILE_MFT_EXPIRED_RE (s : Str) : Option (Str × Str) :=
  matchMid2 (str ": mft expired on ") s

/-- `r"rpki-client: (?P<path>.*): mft not yet valid (?P<expiry>.*)"` -/
def FILE_MFT_NOT_YET_VALID_RE (s : Str) : Option (Str × Str) :=
  matchMid2 (str ": mft not yet valid ") s

/-- `r"rpki-client: (?P<path>.*): bad message digest for (?P<object>.*)"` -/
def FILE_BAD_MESSAGE_DIGEST_RE (s : Str) : Option (Str × Str) :=
  matchMid2 (str ": bad message digest for ") s

/-- The literal ordered rule table of `parse_maybe_warning_line`
(`parsing.py` lines 180-203): `(matcher, warning_type)` pairs, evaluated
in order, first match wins, each arm `return`s. -/
def labelRules : List ((Str → Option Str) × Str) :=
  [(FILE_MISSING_FILE_RE, str "missing_file"),
   (FILE_RESOURCE_OVERCLAIMING_RE, str "overclaiming"),
   (FILE_CERTIFICATE_EXPIRED, str "ee_certificate_expired"),
   (FILE_CERTIFICATE_NOT_YET_VALID_RE, str "ee_certificate_not_yet_valid"),
   (FILE_CERTIFICATE_REVOKED_RE, str "ee_certificate_revoked"),
   (FILE_CERTIFICATE_UNABLE_TO_GET_LOCAL_ISSUER, str "unable_to_get_local_issuer_certificate"),
   (FILE_CERTIFICATE_6487_DUPLICATE_SKI, str "rfc6487_duplicate_ski"),
   (FILE_CERTIFICATE_6487_UNCOVERED_IP, str "rfc6487_uncovered_ip"),
   (FILE_CERTIFICATE_6487_OTHER_ERROR, str "rfc6487_unknown_error"),
   (FILE_BOTH_POSSIBILITES_PRESENT, str "both_possibilities_file_present"),
   (FILE_MFT_NOT_AVAILABLE_RE, str "no_valid_mft_available"),
   (FILE_MFT_CRL_EXPIRED_RE, str "mft_crl_expired"),
   (FILE_MFT_FAILED_FETCH_RE, str "mft_failed_fetch"),
   (FILE_MFT_UNEXPECTED_NUMBER_RE, str "mft_unexpected_number"),
   (FILE_MFT_MISISSUANCE_RECYCLED_RE, str "mft_misissuance_recycled"),
   (FILE_MFT_MISSING_CRL_RE, str "mft_missing_crl"),
   (FILE_MISSING_SIA_RE, str "missing_sia"),
   (FILE_CMS_UNEXPECTED_SIGNED_ATTRIBUTE, str "unexpected_signed_cms_attribute"),
   (FILE_ASPA_PARSE_FAILED, str "aspa_parse_failed")]

/-- `parse_maybe_warning_line` (`parsing.py` lines 175-256): scan the rule
table for the first match, then the remaining branches in source order;
every arm `return`s after its single `yield`, and `datetime.strptime` can
raise `ValueError` before the time-bounded arms yield. -/
def parse_maybe_warning_line (line : Str) : List Warning × Option PyErr :=
  match labelRules.findSome? (fun r => (r.1 line).map fun p => Warning.labelWarning r.2 p) with
  | some w => ([w], none)
  | none =>
    if let some (p, o) := FILE_UNSUPPORTED_FILETYPE_RE line then
      ([mkManifestObjectWarning (str "unsupported_filetype") p o], none)
    else if let some p := FILE_BAD_UPDATE_INTERVAL_RE line then
      ([.labelWarning (str "bad_manifest_update_interval") p], none)
    else if let some (p, e) := FILE_MFT_EXPIRED_RE line then
      match strptimeGmt e with
      | .ok d => ([.expirationWarning (str "expired_manifest") p d], none)
      | .error err => ([], some err)
    else if let some (p, e) := FILE_MFT_NOT_YET_VALID_RE line then
      match strptimeGmt e with
      | .ok d => ([.expirationWarning (str "not_yet_valid_manifest") p d], none)
      | .error err => ([], some err)
    else if let some (p, o) := FILE_BAD_MESSAGE_DIGEST_RE line then
      ([mkManifestObjectWarning (str "bad_message_digest") p o], none)
    else ([], none)

/-- `r"rpki-client: .*\.c:[0-9]+: .*Assertion.*failed."` (boolean match,
no groups). -/
def RPKI_CLIENT_ASSERTION_FAILED (s : Str) : Bool :=
  rpkiTok.isPrefixOf s &&
    (let r := s.drop rpkiTok.length
     (List.range (r.length + 1)).any fun i =>
       occursAt (str ".c:") r i &&
         (let t := r.drop (i + 3)
          let ds := t.takeWhile Char.isDigit
          ds.length ≠ 0 && (str ": ").isPrefixOf (t.drop ds.length) &&
            (let u := t.drop (ds.length + 2)
             (List.range (u.length + 1)).any fun j =>
               occursAt (str "Assertion") u j &&
                 (let v := u.drop (j + 9)
                  (List.range (v.length + 1)).any fun k =>
                    occursAt (str "failed") v k && (v.drop (k + 6)).length ≠ 0))))

/-- `r"rpki-client: (?P<module>.*) terminated signal .*"` -/
def RPKI_CLIENT_TERMINATED (s : Str) : Option Str :=
  matchMid (str " terminated signal ") s

/-- `r"rpki-client: not all files processed, giving up"` -/
def RPKI_CLIENT_NOT_ALL_FILES (s : Str) : Bool :=
  (str "rpki-client: not all files processed, giving up").isPrefixOf s

/-- `parse_rpki_client_error` (`parsing.py` lines 386-402). -/
def parse_rpki_client_error (line : Str) : Option RpkiClientError :=
  if RPKI_CLIENT_ASSERTION_FAILED line then some ⟨str "assertion_failed"⟩
  else if RPKI_CLIENT_NOT_ALL_FILES line then some ⟨str "not_all_files_processed"⟩
  else if let some m := RPKI_CLIENT_TERMINATED line then
    some ⟨m ++ str "_terminated"⟩
  else none

end Parsing

/-! ## `rpkiclientweb/rpki_client.py` -/

namespace RpkiClientMod

/-- The configuration fields `RpkiClient.args`/`run` read
(`config.py`).  `Path.is_file()`/`Path.is_dir()` results are modelled as
Boolean fields, since the filesystem is outside the embedding; the
truthiness test `if self.config.rsync_command` is `Option.isSome`. -/
structure Configuration where
  rpki_client : Str
  rpki_client_is_file : Bool
  rsync_command : Option Str
  rsync_command_is_file : Bool
  cache_dir : Str
  cache_dir_is_dir : Bool
  output_dir : Str
  output_dir_is_dir : Bool
  timeout : Int
  deadline : Int
  additional_opts : List Str
  trust_anchor_locators : List Str
deriving DecidableEq

/-- Python `str(...)` of an integer. -/
def intStr (i : Int) : Str := (toString i).data

/-- `RpkiClient.args` (`rpki_client.py` lines 149-198): validations in
source order (each failure raises `ValueError`), then the literal vector

`[-v, -j, -s, str(timeout), -d, cache_dir] ++ additional_opts
 ++ ([-e, rsync_command] when set) ++ (-t tal, per tal) ++ [output_dir]`.

The timeout validation accepts `timeout == 0` (falsy) or `timeout >= -1`. -/
def args (c : Configuration) : Except PyErr (List Str) :=
  if !c.rpki_client_is_file then .error .valueError
  else if c.rsync_command.isSome && !c.rsync_command_is_file then .error .valueError
  else if !c.cache_dir_is_dir then .error .valueError
  else if !c.output_dir_is_dir then .error .valueError
  else if !(c.timeout = 0 || c.timeout ≥ -1) then .error .valueError
  else .ok (
    ([str "-v", str "-j", str "-s", intStr c.timeout, str "-d", c.cache_dir]
      ++ c.additional_opts
      ++ (match c.rsync_command with | some rc => [str "-e", rc] | none => [])
      ++ (c.trust_anchor_locators.map (fun t => [str "-t", t])).flatten)
      ++ [c.output_dir])

/-- The argument vector exactly as claim C4 words it (spec §6, "Child
process invocation"): no `-s <timeout>` pair.  This definition follows the
spec's words, for comparison against `args`. -/
def specClaimedArgs (c : Configuration) : List Str :=
  ([str "-v", str "-j", str "-d", c.cache_dir]
    ++ c.additional_opts
    ++ (match c.rsync_command with | some rc => [str "-e", rc] | none => [])
    ++ (c.trust_anchor_locators.map (fun t => [str "-t", t])).flatten)
    ++ [c.output_dir]

/-- Abstract behaviour of the spawned validator process, in a discrete
time model. -/
structure ChildBehavior where
  /-- Time after spawn at which the child exits if it is never killed. -/
  exit_delay : Nat
  /-- Additional time the child needs to exit after `proc.kill()`. -/
  kill_delay : Nat
  /-- Exit code on natural exit. -/
  exit_returncode : Int
  /-- Exit code after being killed. -/
  kill_returncode : Int
  stdout : Str
  stderr : Str
deriving DecidableEq

/-- `ExecutionResult` dataclass (`rpki_client.py` lines 111-118), with the
wall-clock duration in the discrete time model. -/
structure ExecutionResult where
  returncode : Int
  stdout : Str
  stderr : Str
  duration : Nat
deriving DecidableEq

/-- What one `RpkiClient.run` invocation did. -/
structure RunTrace where
  /-- Whether `proc.kill()` was called (the `except asyncio.TimeoutError` arm). -/
  killed : Bool
  result : ExecutionResult
deriving DecidableEq

/-- `RpkiClient.run` (`rpki_client.py` lines 226-263), after the spawn:

* `if self.config.timeout > 0: await asyncio.wait_for(proc.wait(), timeout)`
  — completes iff the child exits within `timeout`, else raises
  `asyncio.TimeoutError` at time `timeout`;
* `else: await proc.wait()` — waits for the natural exit, however long;
* `except asyncio.TimeoutError: proc.kill()` — only the positive-timeout
  branch can raise it;
* `stdout, stderr = await proc.communicate()` — runs in both cases, waits
  for the (possibly just killed) child to exit and drains both pipes;
* the returned `ExecutionResult` carries `proc.returncode`, both decoded
  streams, and `time.monotonic() - t0`. -/
def run (timeout : Int) (child : ChildBehavior) : RunTrace :=
  let timedOut := timeout > 0 && (child.exit_delay : Int) > timeout
  let exitTime := if timedOut then timeout.toNat + child.kill_delay else child.exit_delay
  let rc := if timedOut then child.kill_returncode else child.exit_returncode
  { killed := timedOut
    result := { returncode := rc, stdout := child.stdout, stderr := child.stderr,
                duration := exitTime } }

/-- The cross-run state `RpkiClient` holds (`rpki_client.py` lines
140-141): `warnings` and `last_update_repos`. -/
structure ClientState where
  warnings : List WarningSummary
  last_update_repos : Finset Str
deriving DecidableEq

/-- Modelled from the spec: the `rpki_client_errors` collection of the
output parser.  `update_warning_metrics` (line 306) iterates
`parsed.rpki_client_errors`, but the `OutputParser` revision under `src/`
does not define that property; the spec's Event Aggregator contract ("the
sequence of `ProcessError`s", §4.3) and the present
`parsing.parse_rpki_client_error` give its evident meaning: one
`RpkiClientError` per matching line. -/
def rpkiClientErrors (lines : List Str) : List RpkiClientError :=
  lines.filterMap Parsing.parse_rpki_client_error

/-- Metric-sink side effects of one `update_warning_metrics` call. -/
structure UpdateEffects where
  /-- Repositories whose `pulling`/`pulled` gauges were removed
  (`RPKI_CLIENT_REMOVED_UNREFERENCED` increments once per element). -/
  removed_unreferenced : Finset Str
  /-- Repositories whose `pulling` gauge was set to the current time. -/
  pulling_touched : Finset Str
  /-- Repositories whose `pulled` gauge was set to the current time. -/
  pulled_touched : Finset Str
  /-- `RPKI_CLIENT_FETCH_STATUS` increments. -/
  fetch_incs : List FetchStatus
  /-- `RPKI_CLIENT_ERRORS` increments. -/
  error_incs : List RpkiClientError
  vanished_files_count : Nat
  vanished_directories_count : Nat
  /-- Labels whose host-warning gauge was explicitly set to 0. -/
  zeroed_labels : Finset MissingLabel
  /-- Labels set to their new counts. -/
  set_warnings : List WarningSummary
deriving DecidableEq

/-- Result of one `update_warning_metrics` call: the effects produced up
to the first uncaught exception, the new object state (absent when an
exception escaped before the final stores), and the escaped exception. -/
structure UpdateResult where
  effects : UpdateEffects
  newState : Option ClientState
  err : Option PyErr
deriving DecidableEq

/-- `RpkiClient.update_warning_metrics` (`rpki_client.py` lines 279-329):

* parse stderr (`OutputParser`), take `new_pulling = parsed.pulling`;
* **only if** `was_successful_run`: remove the `pulling`/`pulled` gauges of
  every repo in `self.last_update_repos - new_pulling` (lines 286-294);
* touch the `pulling`/`pulled` gauges, count fetch statuses and
  rpki-client errors, set the vanished counts;
* `statistics_by_host()` drains `parsed.warnings` — an exception that the
  per-line handler does not catch, or a `ValueError` from `parse_host`,
  escapes here, *after* the gauge removals but *before* the stores;
* set missing labels to zero, set new warning values, and store
  `self.warnings = new_warnings` / `self.last_update_repos = new_pulling`
  (lines 327-329) — the store is unconditional. -/
def update_warning_metrics (st : ClientState) (stderr : Str)
    (was_successful_run : Bool) : UpdateResult :=
  let lines := Outputparser.outputParserLines stderr
  let new_pulling := Outputparser.pulling lines
  let removed := if was_successful_run then st.last_update_repos \ new_pulling else ∅
  let baseEffects : UpdateEffects :=
    { removed_unreferenced := removed
      pulling_touched := new_pulling
      pulled_touched := Outputparser.pulled lines
      fetch_incs := Outputparser.fetch_status lines
      error_incs := rpkiClientErrors lines
      vanished_files_count := (Outputparser.vanished_files lines).card
      vanished_directories_count := (Outputparser.vanished_directories lines).card
      zeroed_labels := ∅
      set_warnings := [] }
  let wout := Outputparser.warningsList lines
  match wout.uncaught with
  | some e => ⟨baseEffects, none, some e⟩
  | none =>
    match Outputparser.statistics_by_host wout.events with
    | .error e => ⟨baseEffects, none, some e⟩
    | .ok new_warnings =>
      let zeroed := Outputparser.missing_labels st.warnings new_warnings
      ⟨{ baseEffects with zeroed_labels := zeroed, set_warnings := new_warnings },
        some ⟨new_warnings, new_pulling⟩, none⟩

end RpkiClientMod

/-! ## Support definitions for the statements -/

/-- Number of (possibly overlapping) occurrences of `m` in `s`. -/
def substrCount (m s : Str) : Nat :=
  ((List.range (s.length + 1)).filter (fun i => occursAt m s i)).length

/-- `p` is a prefix of `s`, propositionally. -/
def isPre (p s : Str) : Prop := ∃ t, p ++ t = s

/-- A hostname segment that survives netloc extraction verbatim: no
path/query/fragment delimiter, no bracket, no stripped control character. -/
def hostClean (h : Str) : Bool :=
  h.all fun c =>
    c ≠ '/' && c ≠ '?' && c ≠ '#' && c ≠ '[' && c ≠ ']' &&
      c ≠ '\t' && c ≠ '\r' && c ≠ '\n'

/-- A path segment: contains no `/`. -/
def noSlash (h : Str) : Bool := h.all fun c => c ≠ '/'

/-! # Theorems -/

/-! ## General helper lemmas -/

theorem isPrefixOf_iff_isPre : ∀ p s : Str, p.isPrefixOf s = true ↔ isPre p s := by
  intro p
  induction p with
  | nil => intro s; simp [List.isPrefixOf, isPre]
  | cons a as ih =>
    intro s
    cases s with
    | nil => simp [List.isPrefixOf, isPre]
    | cons b bs =>
      simp only [List.isPrefixOf, Bool.and_eq_true, beq_iff_eq, ih bs, isPre]
      constructor
      · rintro ⟨rfl, t, rfl⟩; exact ⟨t, rfl⟩
      · rintro ⟨t, h⟩
        injection h with h1 h2
        exact ⟨h1, t, h2⟩

theorem isPre_trans {a b c : Str} (h₁ : isPre a b) (h₂ : isPre b c) : isPre a c := by
  obtain ⟨t, rfl⟩ := h₁
  obtain ⟨u, rfl⟩ := h₂
  exact ⟨t ++ u, by simp⟩

theorem isPre_takeWhile (p : Char → Bool) (l : Str) : isPre (l.takeWhile p) l :=
  ⟨l.dropWhile p, List.takeWhile_append_dropWhile p l⟩

theorem occursAt_mono {m₁ m₂ s : Str} (i : Nat) (h : isPre m₁ m₂)
    (h₂ : occursAt m₂ s i = true) : occursAt m₁ s i = true := by
  rw [occursAt, isPrefixOf_iff_isPre] at h₂ ⊢
  exact isPre_trans h h₂

theorem lastIndexOf_isSome_mono {m₁ m₂ s : Str} (h : isPre m₁ m₂)
    (h₂ : (lastIndexOf m₂ s).isSome) : (lastIndexOf m₁ s).isSome := by
  rw [lastIndexOf, List.getLast?_isSome] at h₂ ⊢
  obtain ⟨i, hi⟩ := List.exists_mem_of_ne_nil _ h₂
  have := List.of_mem_filter hi
  have hmem := List.mem_of_mem_filter hi
  intro hnil
  have : i ∈ (List.range (s.length + 1)).filter (fun i => occursAt m₁ s i) :=
    List.mem_filter.2 ⟨hmem, occursAt_mono i h this⟩
  simp [hnil] at this

theorem not_mem_takeWhile_ne (c : Char) (l : Str) :
    c ∉ l.takeWhile (fun x => x ≠ c) := by
  intro hmem
  have := List.mem_takeWhile_imp hmem
  simp at this

theorem hash_not_mem_split (l : Str) :
    '#' ∉ (if l.contains '#' then l.takeWhile (fun c => c ≠ '#') else l) := by
  by_cases hc : l.contains '#' = true
  · simp only [hc, if_true]
    exact not_mem_takeWhile_ne '#' l
  · simp only [Bool.not_eq_true] at hc
    simp only [hc, Bool.false_eq_true, if_false]
    simpa using hc

theorem dotRsync_not_pre_rsyncScheme (x : Str) :
    dotRsync.isPrefixOf (str "rsync://" ++ x) = false := rfl

/-! ## C7 — `missing_labels` is a pure key-set difference -/

/-- **C7**: for all summary lists `previous` and `current`,
`missing_labels previous current` is exactly the set of
`(warning_type, hostname)` keys that occur in `previous` and not in
`current`, ignoring counts entirely; and `missing_labels A A = ∅` for
every list `A`. -/
theorem c7_missing_labels_key_difference :
    (∀ (previous current : List WarningSummary) (m : MissingLabel),
        m ∈ Outputparser.missing_labels previous current ↔
          ((∃ w ∈ previous, Outputparser.summaryLabel w = m) ∧
            ∀ w ∈ current, Outputparser.summaryLabel w ≠ m)) ∧
    (∀ a : List WarningSummary, Outputparser.missing_labels a a = ∅) := by
  constructor
  · intro previous current m
    simp [Outputparser.missing_labels]
  · intro a
    simp [Outputparser.missing_labels]

/-! ## C6 — scheduler cadence under an overrunning tick -/

/-- **C6 counterexample**: with interval 1 and a run that needs 2 seconds,
the claim says the invocation is deferred until the run finishes and the
cadence is `max 1 2 = 2`; in the code `asyncio.wait_for` cancels the run
at the interval boundary and the cadence is the interval, 1. -/
theorem c6_counterexample :
    (UtilMisc.repeatTick 1 2).completed = false ∧
      (UtilMisc.repeatTick 1 2).cadence = 1 ∧
      (UtilMisc.repeatTick 1 2).cadence ≠ max 1 2 := by
  decide

/-- **C6 (amended)**: iterations of the `repeat` loop are sequential, and
the time between consecutive invocation starts is always exactly the
configured interval: a tick that finishes early is padded by the `sleep`,
and a tick still running when the interval elapses is *cancelled* by
`asyncio.wait_for` (not deferred), after which the next invocation starts
immediately.  A tick runs to completion iff its duration is at most the
interval. -/
theorem c6_repeat_cadence_is_interval :
    ∀ interval run_duration : Nat,
      (UtilMisc.repeatTick interval run_duration).cadence = interval ∧
        ((UtilMisc.repeatTick interval run_duration).completed = true ↔
          run_duration ≤ interval) := by
  intro i d
  unfold UtilMisc.repeatTick
  by_cases h : d ≤ i <;> simp [h]

/-! ## C9 — process runner timeout handling -/

/-- **C9**: with a positive timeout, a child that has not exited when the
timeout elapses is killed, the runner still waits for it to exit, and the
returned result carries the exit code, both captured streams and the
elapsed duration; a child that exits in time is not killed; with a zero
or negative timeout the runner waits for the natural exit, however long,
and never kills the child. -/
theorem c9_run_timeout_kill :
    ∀ (timeout : Int) (child : RpkiClientMod.ChildBehavior),
      (0 < timeout → timeout < (child.exit_delay : Int) →
        (RpkiClientMod.run timeout child).killed = true ∧
          (RpkiClientMod.run timeout child).result =
            { returncode := child.kill_returncode, stdout := child.stdout,
              stderr := child.stderr,
              duration := timeout.toNat + child.kill_delay }) ∧
      (0 < timeout → (child.exit_delay : Int) ≤ timeout →
        (RpkiClientMod.run timeout child).killed = false ∧
          (RpkiClientMod.run timeout child).result =
            { returncode := child.exit_returncode, stdout := child.stdout,
              stderr := child.stderr, duration := child.exit_delay }) ∧
      (timeout ≤ 0 →
        (RpkiClientMod.run timeout child).killed = false ∧
          (RpkiClientMod.run timeout child).result =
            { returncode := child.exit_returncode, stdout := child.stdout,
              stderr := child.stderr, duration := child.exit_delay }) := by
  intro t c
  refine ⟨fun h1 h2 => ?_, fun h1 h2 => ?_, fun h1 => ?_⟩
  · simp [RpkiClientMod.run, h1, h2]
  · have h3 : ¬ ((c.exit_delay : Int) > t) := not_lt.2 h2
    simp [RpkiClientMod.run, h3]
  · have h3 : ¬ (t > 0) := not_lt.2 h1
    simp [RpkiClientMod.run, h3]

/-- **C9 witness**: timeout 1 against a child that would exit at time 10:
the theorem applies and the child is killed. -/
theorem c9_run_timeout_kill_witness :
    (RpkiClientMod.run 1 ⟨10, 3, 0, -9, str "o", str "e"⟩).killed = true ∧
      (RpkiClientMod.run 1 ⟨10, 3, 0, -9, str "o", str "e"⟩).result.duration = 4 := by
  have h := (c9_run_timeout_kill 1 ⟨10, 3, 0, -9, str "o", str "e"⟩).1
    (by decide) (by decide)
  exact ⟨h.1, by rw [h.2]; rfl⟩

/-! ## C10 — event URI normalisation in `models.py` -/

/-- **C10 counterexample**: the claim says an emitted event URI never
starts with `.rsync/`.  A `ManifestObjectWarning` built with the prefix
doubled strips it only once, and the stored uri still starts with
`.rsync/`. -/
theorem c10_counterexample :
    (mkManifestObjectWarning (str "bad_message_digest")
        (str ".rsync/.rsync/a.mft") (str "x")).uri = str ".rsync/a.mft" ∧
      dotRsync.isPrefixOf
        (mkManifestObjectWarning (str "bad_message_digest")
          (str ".rsync/.rsync/a.mft") (str "x")).uri = true := by
  decide

/-- **C10 (amended)**: a `FetchStatus` uri never starts with `.rsync/`
(a uri carrying the marker is stored rewritten to `rsync://` plus the
rest); a `ManifestObjectWarning` strips one leading `.rsync/` marker and
truncates at the first `#` — so its stored uri contains no `#`, and it
can still start with `.rsync/`, but only when the original uri carried
the marker twice. -/
theorem c10_uri_normalisation :
    (∀ u t c, dotRsync.isPrefixOf (mkFetchStatus u t c).uri = false) ∧
      (∀ u t c, dotRsync.isPrefixOf u = true →
        (mkFetchStatus u t c).uri = str "rsync://" ++ u.drop 7) ∧
      (∀ w u o, ((mkManifestObjectWarning w u o).uri).contains '#' = false) ∧
      (∀ w u o, dotRsync.isPrefixOf (mkManifestObjectWarning w u o).uri = true →
        (str ".rsync/.rsync/").isPrefixOf u = true) := by
  refine ⟨fun u t c => ?_, fun u t c h => ?_, fun w u o => ?_, fun w u o h => ?_⟩
  · by_cases h : dotRsync.isPrefixOf u = true
    · simp only [mkFetchStatus, h, if_true]
      exact dotRsync_not_pre_rsyncScheme (u.drop 7)
    · simp only [mkFetchStatus, Bool.not_eq_true] at h ⊢
      simp [h]
  · simp [mkFetchStatus, h]
  · simp only [mkManifestObjectWarning, Warning.uri]
    simpa using hash_not_mem_split (if dotRsync.isPrefixOf u then u.drop 7 else u)
  · have hpre : isPre dotRsync
        (if dotRsync.isPrefixOf u then u.drop 7 else u) := by
      have h2 := h
      simp only [mkManifestObjectWarning, Warning.uri] at h2
      rw [isPrefixOf_iff_isPre] at h2
      set u1 := (if dotRsync.isPrefixOf u then u.drop 7 else u) with hu1
      by_cases hc : u1.contains '#' = true
      · simp only [hc, if_true] at h2
        exact isPre_trans h2 (isPre_takeWhile _ u1)
      · simp only [hc] at h2
        simpa using h2
    by_cases h1 : dotRsync.isPrefixOf u = true
    · simp only [h1, if_true] at hpre
      rw [isPrefixOf_iff_isPre] at h1 ⊢
      obtain ⟨t, ht⟩ := h1
      have hdrop : u.drop 7 = t := by
        rw [← ht]
        have : (7 : Nat) = dotRsync.length := rfl
        rw [this, List.drop_left]
      rw [hdrop] at hpre
      obtain ⟨t2, ht2⟩ := hpre
      refine ⟨t2, ?_⟩
      rw [← ht, ← ht2]
      rfl
    · exfalso
      simp only [Bool.not_eq_true] at h1
      simp only [h1, Bool.false_eq_true, if_false] at hpre
      have h2 := (isPrefixOf_iff_isPre dotRsync u).2 hpre
      rw [h1] at h2
      exact Bool.false_ne_true h2

/-- **C10 witness**: the `FetchStatus` rewrite conjunct applied to a
concrete `.rsync/`-prefixed uri. -/
theorem c10_uri_normalisation_witness :
    (mkFetchStatus (str ".rsync/host/mod") (str "t") 1).uri =
      str "rsync://" ++ (str ".rsync/host/mod").drop 7 :=
  c10_uri_normalisation.2.1 (str ".rsync/host/mod") (str "t") 1 (by decide)

/-! ## C8 — the intertwined-line filter -/

/-- **C8 counterexample**: the claim says *any* line containing the
line-prefix token twice is dropped and contributes zero events.  The
filter only drops lines that *start* with the token: an rsync
`file has vanished` line quoting a path that contains the token twice is
kept and contributes a vanished-file path (which even embeds the token). -/
theorem c8_counterexample :
    substrCount rpkiTok
        (str "file has vanished: \"rpki-client: rpki-client: x\" (in repo)") = 2 ∧
      Outputparser.INTERTWINED_LINE_RE
        (str "file has vanished: \"rpki-client: rpki-client: x\" (in repo)") = false ∧
      Outputparser.vanished_files
        (Outputparser.filterLines
          [str "file has vanished: \"rpki-client: rpki-client: x\" (in repo)"]) ≠ ∅ := by
  decide

/-- **C8 (amended)**: any line that *starts with* the line-prefix token
and contains it a second time (the `INTERTWINED_LINE_RE` shape) is
removed by the `OutputParser` constructor filter, and therefore
contributes zero events to warnings, fetch statuses, pulling, pulled and
the vanished sets; a line containing the token twice but not at the
start is not removed. -/
theorem c8_intertwined_line_dropped :
    ∀ (ls1 ls2 : List Str) (line : Str),
      Outputparser.INTERTWINED_LINE_RE line = true →
        Outputparser.warningsList (Outputparser.filterLines (ls1 ++ line :: ls2)) =
            Outputparser.warningsList (Outputparser.filterLines (ls1 ++ ls2)) ∧
          Outputparser.fetch_status (Outputparser.filterLines (ls1 ++ line :: ls2)) =
            Outputparser.fetch_status (Outputparser.filterLines (ls1 ++ ls2)) ∧
          Outputparser.pulling (Outputparser.filterLines (ls1 ++ line :: ls2)) =
            Outputparser.pulling (Outputparser.filterLines (ls1 ++ ls2)) ∧
          Outputparser.pulled (Outputparser.filterLines (ls1 ++ line :: ls2)) =
            Outputparser.pulled (Outputparser.filterLines (ls1 ++ ls2)) ∧
          Outputparser.vanished_files (Outputparser.filterLines (ls1 ++ line :: ls2)) =
            Outputparser.vanished_files (Outputparser.filterLines (ls1 ++ ls2)) ∧
          Outputparser.vanished_directories (Outputparser.filterLines (ls1 ++ line :: ls2)) =
            Outputparser.vanished_directories (Outputparser.filterLines (ls1 ++ ls2)) := by
  intro ls1 ls2 line h
  have he : Outputparser.filterLines (ls1 ++ line :: ls2) =
      Outputparser.filterLines (ls1 ++ ls2) := by
    unfold Outputparser.filterLines
    rw [List.filter_append, List.filter_append, List.filter_cons]
    simp [h]
  rw [he]
  exact ⟨rfl, rfl, rfl, rfl, rfl, rfl⟩

/-- **C8 witness**: the theorem applied to a concrete intertwined line
between two ordinary lines. -/
theorem c8_intertwined_line_dropped_witness :
    Outputparser.pulling
        (Outputparser.filterLines
          ([str "rpki-client: a: pulling from network"] ++
            (str "rpki-client: rpki-client: x: pulling from network") ::
              [str "rpki-client: b: loaded from network"])) =
      Outputparser.pulling
        (Outputparser.filterLines
          ([str "rpki-client: a: pulling from network"] ++
            [str "rpki-client: b: loaded from network"])) :=
  (c8_intertwined_line_dropped [str "rpki-client: a: pulling from network"]
    [str "rpki-client: b: loaded from network"]
    (str "rpki-client: rpki-client: x: pulling from network") (by decide)).2.2.1

/-! ## C2 — per-line exception recovery in `OutputParser.warnings` -/

/-- **C2 (code bug)**: the `warnings` iteration catches only `ValueError`
and `IndexError`, but the `bad update interval` branch of the legacy
`parse_maybe_warning_line` raises `NameError` (`Labelwarning` is
undefined).  On the failing input
`rpki-client: a.mft: bad update interval 6h` the exception escapes the
iteration and the following line — which alone classifies fine — is never
processed, contradicting the claim that classification of the remaining
lines still produces their events. -/
theorem c2_uncaught_nameerror_escapes :
    Outputparser.parse_maybe_warning_line
        (str "rpki-client: b.mft: No such file or directory") =
      ([.labelWarning (str "missing_file") (str "b.mft")], none) ∧
      Outputparser.parse_maybe_warning_line
          (str "rpki-client: a.mft: bad update interval 6h") =
        ([], some .nameError) ∧
      Outputparser.warningsList
          [str "rpki-client: a.mft: bad update interval 6h",
           str "rpki-client: b.mft: No such file or directory"] =
        ⟨[], 0, some .nameError⟩ := by
  decide

/-! ## C3 — single-event classification, first rule wins -/

theorem lastSplit_isSome_iff (m s : Str) :
    (lastSplit m s).isSome ↔ (lastIndexOf m s).isSome := by
  unfold lastSplit
  cases lastIndexOf m s <;> simp

theorem matchMid_isSome_mono {m₁ m₂ : Str} (s : Str) (h : isPre m₁ m₂)
    (h₂ : (matchMid m₂ s).isSome) : (matchMid m₁ s).isSome := by
  unfold matchMid at h₂ ⊢
  by_cases hp : rpkiTok.isPrefixOf s = true
  · simp only [hp, if_true] at h₂ ⊢
    cases hls : lastSplit m₂ (s.drop rpkiTok.length) with
    | none => rw [hls] at h₂; simp at h₂
    | some p =>
      have h3 : (lastIndexOf m₂ (s.drop rpkiTok.length)).isSome := by
        rw [← lastSplit_isSome_iff]; simp [hls]
      have h4 := lastIndexOf_isSome_mono h h3
      rw [← lastSplit_isSome_iff] at h4
      obtain ⟨q, hq⟩ := Option.isSome_iff_exists.mp h4
      simp [hq]
  · simp only [Bool.not_eq_true] at hp
    simp [hp] at h₂

theorem findSome_rules_sound
    (rules : List ((Str → Option Str) × Str)) (line : Str) (w : Warning) :
    rules.findSome? (fun r => (r.1 line).map fun q => Warning.labelWarning r.2 q) =
        some w →
      ∃ r ∈ rules, ∃ q, r.1 line = some q ∧ w = Warning.labelWarning r.2 q := by
  induction rules with
  | nil => intro h; simp [List.findSome?] at h
  | cons a rs ih =>
    intro h
    rw [List.findSome?_cons] at h
    cases ha : a.1 line with
    | some q =>
      rw [ha] at h
      simp at h
      exact ⟨a, List.mem_cons_self a rs, q, ha, h.symm⟩
    | none =>
      rw [ha] at h
      simp at h
      obtain ⟨r, hr, q, hq, hw⟩ := ih h
      exact ⟨r, List.mem_cons_of_mem a hr, q, hq, hw⟩

theorem findSome_rules_stops
    (pre post : List ((Str → Option Str) × Str))
    (r₀ : (Str → Option Str) × Str) (line : Str)
    (h : (r₀.1 line).isSome)
    (f : ((Str → Option Str) × Str) → Option Warning) :
    (f = fun r => (r.1 line).map fun q => Warning.labelWarning r.2 q) →
    (pre ++ r₀ :: post).findSome? f = (pre ++ [r₀]).findSome? f := by
  intro hf
  induction pre with
  | nil =>
    simp only [List.nil_append, List.findSome?_cons]
    obtain ⟨q, hq⟩ := Option.isSome_iff_exists.mp h
    subst hf
    simp [hq]
  | cons a pres ih =>
    simp only [List.cons_append, List.findSome?_cons]
    rw [ih]

/-- **C3 counterexample**: the legacy `parse_maybe_warning_line`
(`outputparser.py`) has no early returns, so a line matching both the
missing-file and the bad-message-digest patterns yields *two* events. -/
theorem c3_counterexample :
    Outputparser.parse_maybe_warning_line
        (str "rpki-client: a: No such file or directory: bad message digest for obj") =
      ([.labelWarning (str "missing_file") (str "a"),
        .manifestObjectWarning (str "bad_message_digest")
          (str "a: No such file or directory") (str "obj")], none) ∧
      1 < (Outputparser.parse_maybe_warning_line
        (str "rpki-client: a: No such file or directory: bad message digest for obj")).1.length := by
  decide

/-- **C3 (amended)**: in the current classifier (`parsing.py`), every
line yields at most one event and the first matching rule of the ordered
table wins — e.g. whenever the specific `duplicate SKI` rule matches, the
generic `RFC 6487` rule also matches the same line, yet the produced
event never carries the generic `rfc6487_unknown_error` type.  The
legacy `outputparser.py` classifier lacks the early returns and can
yield one event per matching rule. -/
theorem c3_single_event_first_match :
    ∀ line : Str,
      (Parsing.parse_maybe_warning_line line).1.length ≤ 1 ∧
        ((Parsing.FILE_CERTIFICATE_6487_DUPLICATE_SKI line).isSome →
          (Parsing.FILE_CERTIFICATE_6487_OTHER_ERROR line).isSome ∧
            ∀ w ∈ (Parsing.parse_maybe_warning_line line).1,
              w.warningType ≠ str "rfc6487_unknown_error") := by
  intro line
  constructor
  · unfold Parsing.parse_maybe_warning_line
    split
    · simp
    · cases h2 : Parsing.FILE_UNSUPPORTED_FILETYPE_RE line with
      | some po => simp [h2]
      | none =>
        simp only [h2]
        cases h3 : Parsing.FILE_BAD_UPDATE_INTERVAL_RE line with
        | some p => simp [h3]
        | none =>
          simp only [h3]
          cases h4 : Parsing.FILE_MFT_EXPIRED_RE line with
          | some pe =>
            simp only [h4]
            cases strptimeGmt pe.2 <;> simp
          | none =>
            simp only [h4]
            cases h5 : Parsing.FILE_MFT_NOT_YET_VALID_RE line with
            | some pe =>
              simp only [h5]
              cases strptimeGmt pe.2 <;> simp
            | none =>
              simp only [h5]
              cases h6 : Parsing.FILE_BAD_MESSAGE_DIGEST_RE line with
              | some po => simp [h6]
              | none => simp [h6]
  · intro h
    constructor
    · exact matchMid_isSome_mono line ⟨str " duplicate SKI", rfl⟩ h
    · have hsplit : Parsing.labelRules =
          [(Parsing.FILE_MISSING_FILE_RE, str "missing_file"),
           (Parsing.FILE_RESOURCE_OVERCLAIMING_RE, str "overclaiming"),
           (Parsing.FILE_CERTIFICATE_EXPIRED, str "ee_certificate_expired"),
           (Parsing.FILE_CERTIFICATE_NOT_YET_VALID_RE, str "ee_certificate_not_yet_valid"),
           (Parsing.FILE_CERTIFICATE_REVOKED_RE, str "ee_certificate_revoked"),
           (Parsing.FILE_CERTIFICATE_UNABLE_TO_GET_LOCAL_ISSUER,
             str "unable_to_get_local_issuer_certificate")] ++
          (Parsing.FILE_CERTIFICATE_6487_DUPLICATE_SKI, str "rfc6487_duplicate_ski") ::
          [(Parsing.FILE_CERTIFICATE_6487_UNCOVERED_IP, str "rfc6487_uncovered_ip"),
           (Parsing.FILE_CERTIFICATE_6487_OTHER_ERROR, str "rfc6487_unknown_error"),
           (Parsing.FILE_BOTH_POSSIBILITES_PRESENT, str "both_possibilities_file_present"),
           (Parsing.FILE_MFT_NOT_AVAILABLE_RE, str "no_valid_mft_available"),
           (Parsing.FILE_MFT_CRL_EXPIRED_RE, str "mft_crl_expired"),
           (Parsing.FILE_MFT_FAILED_FETCH_RE, str "mft_failed_fetch"),
           (Parsing.FILE_MFT_UNEXPECTED_NUMBER_RE, str "mft_unexpected_number"),
           (Parsing.FILE_MFT_MISISSUANCE_RECYCLED_RE, str "mft_misissuance_recycled"),
           (Parsing.FILE_MFT_MISSING_CRL_RE, str "mft_missing_crl"),
           (Parsing.FILE_MISSING_SIA_RE, str "missing_sia"),
           (Parsing.FILE_CMS_UNEXPECTED_SIGNED_ATTRIBUTE, str "unexpected_signed_cms_attribute"),
           (Parsing.FILE_ASPA_PARSE_FAILED, str "aspa_parse_failed")] := rfl
      cases hf : Parsing.labelRules.findSome?
          (fun r => (r.1 line).map fun q => Warning.labelWarning r.2 q) with
      | none =>
        exfalso
        obtain ⟨p, hp⟩ := Option.isSome_iff_exists.mp h
        have hmem : (Parsing.FILE_CERTIFICATE_6487_DUPLICATE_SKI,
            str "rfc6487_duplicate_ski") ∈ Parsing.labelRules := by
          rw [hsplit]
          exact List.mem_append_right _ (List.mem_cons_self _ _)
        have hall := List.findSome?_eq_none_iff.mp hf _ hmem
        simp [hp] at hall
      | some w =>
        have hparse : Parsing.parse_maybe_warning_line line = ([w], none) := by
          unfold Parsing.parse_maybe_warning_line
          rw [hf]
        rw [hparse]
        simp only [List.mem_singleton, forall_eq]
        have hstop := findSome_rules_stops
          [(Parsing.FILE_MISSING_FILE_RE, str "missing_file"),
           (Parsing.FILE_RESOURCE_OVERCLAIMING_RE, str "overclaiming"),
           (Parsing.FILE_CERTIFICATE_EXPIRED, str "ee_certificate_expired"),
           (Parsing.FILE_CERTIFICATE_NOT_YET_VALID_RE, str "ee_certificate_not_yet_valid"),
           (Parsing.FILE_CERTIFICATE_REVOKED_RE, str "ee_certificate_revoked"),
           (Parsing.FILE_CERTIFICATE_UNABLE_TO_GET_LOCAL_ISSUER,
             str "unable_to_get_local_issuer_certificate")]
          [(Parsing.FILE_CERTIFICATE_6487_UNCOVERED_IP, str "rfc6487_uncovered_ip"),
           (Parsing.FILE_CERTIFICATE_6487_OTHER_ERROR, str "rfc6487_unknown_error"),
           (Parsing.FILE_BOTH_POSSIBILITES_PRESENT, str "both_possibilities_file_present"),
           (Parsing.FILE_MFT_NOT_AVAILABLE_RE, str "no_valid_mft_available"),
           (Parsing.FILE_MFT_CRL_EXPIRED_RE, str "mft_crl_expired"),
           (Parsing.FILE_MFT_FAILED_FETCH_RE, str "mft_failed_fetch"),
           (Parsing.FILE_MFT_UNEXPECTED_NUMBER_RE, str "mft_unexpected_number"),
           (Parsing.FILE_MFT_MISISSUANCE_RECYCLED_RE, str "mft_misissuance_recycled"),
           (Parsing.FILE_MFT_MISSING_CRL_RE, str "mft_missing_crl"),
           (Parsing.FILE_MISSING_SIA_RE, str "missing_sia"),
           (Parsing.FILE_CMS_UNEXPECTED_SIGNED_ATTRIBUTE, str "unexpected_signed_cms_attribute"),
           (Parsing.FILE_ASPA_PARSE_FAILED, str "aspa_parse_failed")]
          (Parsing.FILE_CERTIFICATE_6487_DUPLICATE_SKI, str "rfc6487_duplicate_ski")
          line h _ rfl
        rw [hsplit, hstop] at hf
        obtain ⟨r, hr, q, hq, hw⟩ := findSome_rules_sound _ line w hf
        subst hw
        simp only [List.mem_append, List.mem_cons, List.mem_singleton,
          List.not_mem_nil, or_false] at hr
        rcases hr with hr | hr
        · rcases hr with hr | hr | hr | hr | hr | hr <;> subst hr <;>
            simp only [Warning.warningType] <;> decide
        · subst hr
          simp only [Warning.warningType]
          decide

/-- **C3 witness**: the theorem applied to a concrete `duplicate SKI`
line, whose rule-match hypothesis holds by evaluation. -/
theorem c3_single_event_first_match_witness :
    (Parsing.FILE_CERTIFICATE_6487_OTHER_ERROR
        (str "rpki-client: cert.cer: RFC 6487: duplicate SKI")).isSome ∧
      ∀ w ∈ (Parsing.parse_maybe_warning_line
          (str "rpki-client: cert.cer: RFC 6487: duplicate SKI")).1,
        w.warningType ≠ str "rfc6487_unknown_error" :=
  (c3_single_event_first_match
    (str "rpki-client: cert.cer: RFC 6487: duplicate SKI")).2 (by decide)

/-! ## C4 — the child-process argument vector -/

/-- **C4 counterexample**: the claim's vector omits the `-s <timeout>`
pair the code inserts between the JSON-output flag and the
cache-directory flag.  At a concrete valid configuration the built
vector differs from the claimed one. -/
theorem c4_counterexample :
    RpkiClientMod.args
        ⟨str "/bin/rpki-client", true, none, false, str "/cache", true,
          str "/out", true, 100, -1, [], [str "/t.tal"]⟩ =
      .ok [str "-v", str "-j", str "-s", str "100", str "-d", str "/cache",
        str "-t", str "/t.tal", str "/out"] ∧
      RpkiClientMod.specClaimedArgs
          ⟨str "/bin/rpki-client", true, none, false, str "/cache", true,
            str "/out", true, 100, -1, [], [str "/t.tal"]⟩ =
        [str "-v", str "-j", str "-d", str "/cache",
          str "-t", str "/t.tal", str "/out"] ∧
      [str "-v", str "-j", str "-s", str "100", str "-d", str "/cache",
          str "-t", str "/t.tal", str "/out"] ≠
        [str "-v", str "-j", str "-d", str "/cache",
          str "-t", str "/t.tal", str "/out"] :=
  ⟨rfl, rfl, by decide⟩

/-- **C4 (amended)**: for every configuration that passes the pre-launch
validations, the argument vector is the claimed one with a single
`-s <timeout>` pair inserted after the verbose and JSON flags: verbose
flag, JSON flag, `-s` with the stringified timeout, cache-directory flag
and directory, the extra options verbatim in order, the rsync-helper
flag and helper when configured, one `-t <tal>` pair per trust anchor in
order, and the output directory as the single trailing positional
argument — no other tokens. -/
theorem c4_args_vector :
    ∀ c : RpkiClientMod.Configuration,
      c.rpki_client_is_file = true →
      (c.rsync_command.isSome → c.rsync_command_is_file = true) →
      c.cache_dir_is_dir = true →
      c.output_dir_is_dir = true →
      -1 ≤ c.timeout →
      RpkiClientMod.args c =
        .ok (List.take 2 (RpkiClientMod.specClaimedArgs c) ++
          [str "-s", RpkiClientMod.intStr c.timeout] ++
          List.drop 2 (RpkiClientMod.specClaimedArgs c)) := by
  intro c h1 h2 h3 h4 h5
  have hrs : (c.rsync_command.isSome && !c.rsync_command_is_file) = false := by
    cases hr : c.rsync_command with
    | none => simp
    | some rc =>
      have := h2 (by simp [hr])
      simp [this]
  have ht : (decide (c.timeout = 0) || decide (c.timeout ≥ -1)) = true := by
    simp [h5]
  unfold RpkiClientMod.args RpkiClientMod.specClaimedArgs
  simp only [h1, h3, h4, hrs, ht, Bool.not_true, Bool.false_eq_true, if_false,
    Bool.or_self, Bool.not_false, if_true, str]
  simp [List.take, List.drop]

/-- **C4 witness**: the theorem applied to a concrete configuration with
an extra option, an rsync helper and two trust anchors. -/
theorem c4_args_vector_witness :
    RpkiClientMod.args
        ⟨str "/bin/rpki-client", true, some (str "/bin/rsync"), true, str "/cache", true,
          str "/out", true, 0, -1, [str "-A"], [str "/a.tal", str "/b.tal"]⟩ =
      .ok (List.take 2 (RpkiClientMod.specClaimedArgs
            ⟨str "/bin/rpki-client", true, some (str "/bin/rsync"), true, str "/cache", true,
              str "/out", true, 0, -1, [str "-A"], [str "/a.tal", str "/b.tal"]⟩) ++
        [str "-s", RpkiClientMod.intStr 0] ++
        List.drop 2 (RpkiClientMod.specClaimedArgs
          ⟨str "/bin/rpki-client", true, some (str "/bin/rsync"), true, str "/cache", true,
            str "/out", true, 0, -1, [str "-A"], [str "/a.tal", str "/b.tal"]⟩)) :=
  c4_args_vector _ (by decide) (fun _ => by decide) (by decide) (by decide) (by decide)

/-! ## C5 — host extraction -/

theorem splitChar_ne_nil (sep : Char) (s : Str) : UtilMisc.splitChar sep s ≠ [] := by
  cases s with
  | nil => simp [UtilMisc.splitChar]
  | cons c cs =>
    unfold UtilMisc.splitChar
    cases h : UtilMisc.splitChar sep cs with
    | nil => simp
    | cons t ts => by_cases hc : c = sep <;> simp [hc]

theorem splitChar_tail_cons (sep : Char) (ys : Str) :
    ∃ t ts, UtilMisc.splitChar sep ys = t :: ts := by
  cases h' : UtilMisc.splitChar sep ys with
  | nil => exact absurd h' (splitChar_ne_nil sep ys)
  | cons t ts => exact ⟨t, ts, rfl⟩

theorem splitChar_cons_sep (sep : Char) (ys : Str) :
    UtilMisc.splitChar sep (sep :: ys) = [] :: UtilMisc.splitChar sep ys := by
  obtain ⟨t, ts, hy⟩ := splitChar_tail_cons sep ys
  rw [hy]
  unfold UtilMisc.splitChar
  rw [hy]
  simp

theorem splitChar_cons_ne (sep c : Char) (ys : Str) (hc : c ≠ sep)
    (t : Str) (ts : List Str) (hy : UtilMisc.splitChar sep ys = t :: ts) :
    UtilMisc.splitChar sep (c :: ys) = (c :: t) :: ts := by
  unfold UtilMisc.splitChar
  rw [hy]
  simp [hc]

theorem splitChar_append_cons (sep : Char) (xs ys : Str)
    (h : xs.all (fun c => c ≠ sep) = true) :
    UtilMisc.splitChar sep (xs ++ sep :: ys) = xs :: UtilMisc.splitChar sep ys := by
  induction xs with
  | nil =>
    simpa using splitChar_cons_sep sep ys
  | cons c cs ih =>
    simp only [List.all_cons, Bool.and_eq_true] at h
    have hcsep : c ≠ sep := by simpa using h.1
    obtain ⟨t, ts, hy⟩ := splitChar_tail_cons sep (cs ++ sep :: ys)
    have hih := ih h.2
    rw [hy] at hih
    obtain ⟨h1, h2⟩ : t = cs ∧ ts = UtilMisc.splitChar sep ys := by
      injection hih with a b; exact ⟨a, b⟩
    subst h1; subst h2
    simp only [List.cons_append]
    exact splitChar_cons_ne sep c _ hcsep _ _ hy

theorem joinSlash_cons (t : Str) (ts : List Str) (h : ts ≠ []) :
    UtilMisc.joinSlash (t :: ts) = t ++ '/' :: UtilMisc.joinSlash ts := by
  cases ts with
  | nil => exact absurd rfl h
  | cons u us => rfl

theorem joinSlash_splitChar (s : Str) :
    UtilMisc.joinSlash (UtilMisc.splitChar '/' s) = s := by
  induction s with
  | nil => rfl
  | cons c cs ih =>
    obtain ⟨t, ts, h⟩ := splitChar_tail_cons '/' cs
    rw [h] at ih
    by_cases hc : c = '/'
    · subst hc
      have hs : UtilMisc.splitChar '/' ('/' :: cs) = [] :: t :: ts := by
        rw [splitChar_cons_sep '/' cs, h]
      rw [hs, joinSlash_cons [] (t :: ts) (by simp), List.nil_append, ih]
    · have hs : UtilMisc.splitChar '/' (c :: cs) = (c :: t) :: ts :=
        splitChar_cons_ne '/' c cs hc t ts h
      rw [hs]
      cases ts with
      | nil =>
        simp only [UtilMisc.joinSlash] at ih ⊢
        rw [ih]
      | cons v vs =>
        rw [joinSlash_cons (c :: t) (v :: vs) (by simp)]
        rw [joinSlash_cons t (v :: vs) (by simp)] at ih
        rw [← ih]
        simp

theorem splitChar_no_sep (sep : Char) (s : Str)
    (h : s.all (fun c => c ≠ sep) = true) : UtilMisc.splitChar sep s = [s] := by
  induction s with
  | nil => rfl
  | cons c cs ih =>
    simp only [List.all_cons, Bool.and_eq_true] at h
    have hcsep : c ≠ sep := by simpa using h.1
    unfold UtilMisc.splitChar
    rw [ih h.2]
    simp [hcsep]

theorem takeWhile_append_stop (p : Char → Bool) (xs : Str) (y : Char) (ys : Str)
    (hall : xs.all p = true) (hy : p y = false) :
    (xs ++ y :: ys).takeWhile p = xs := by
  induction xs with
  | nil => simp [List.takeWhile, hy]
  | cons a as ih =>
    simp only [List.all_cons, Bool.and_eq_true] at hall
    simp only [List.cons_append, List.takeWhile, hall.1, List.append_eq]
    rw [ih hall.2]

theorem filter_append_keep (p : Char → Bool) (xs : Str) (y : Char) (ys : Str)
    (hall : xs.all p = true) (hy : p y = true) :
    (xs ++ y :: ys).filter p = xs ++ y :: ys.filter p := by
  rw [List.filter_append, List.filter_cons]
  simp only [hy, if_true]
  congr 1
  exact List.filter_eq_self.mpr (by simpa [List.all_eq_true] using hall)

/-- Unpacked character facts of a `hostClean` segment. -/
theorem hostClean_spec {host : Str} (h : hostClean host = true) :
    ∀ c ∈ host, c ≠ '/' ∧ c ≠ '?' ∧ c ≠ '#' ∧ c ≠ '[' ∧ c ≠ ']' ∧
      c ≠ '\t' ∧ c ≠ '\r' ∧ c ≠ '\n' := by
  intro c hc
  have := (List.all_eq_true.mp h) c hc
  simp only [Bool.and_eq_true, decide_eq_true_eq] at this
  tauto

theorem not_contains_of_not_mem {c : Char} {l : Str} (h : c ∉ l) :
    l.contains c = false := by
  simpa using h

/-- Core of `parse_host`: the netloc of `//host/...` is `host` when the
host segment is clean. -/
theorem urlparseNetloc_host (host tail0 : Str) (hclean : hostClean host = true) :
    UtilMisc.urlparseNetloc (host ++ '/' :: tail0) = .ok host := by
  have hprops := hostClean_spec hclean
  have hstrip : UtilMisc.stripUnsafe (host ++ '/' :: tail0) =
      host ++ '/' :: UtilMisc.stripUnsafe tail0 := by
    unfold UtilMisc.stripUnsafe
    refine filter_append_keep _ host '/' tail0 ?_ (by decide)
    rw [List.all_eq_true]
    intro c hc
    obtain ⟨-, -, -, -, -, h6, h7, h8⟩ := hprops c hc
    simp [h6, h7, h8]
  have hnet : UtilMisc.netlocOf (host ++ '/' :: UtilMisc.stripUnsafe tail0) = host := by
    unfold UtilMisc.netlocOf
    refine takeWhile_append_stop _ host '/' _ ?_ (by decide)
    rw [List.all_eq_true]
    intro c hc
    obtain ⟨h1, h2, h3, -, -, -, -, -⟩ := hprops c hc
    simp [h1, h2, h3]
  have hnb1 : '[' ∉ host := fun hm => ((hprops _ hm).2.2.2.1) rfl
  have hnb2 : ']' ∉ host := fun hm => ((hprops _ hm).2.2.2.2.1) rfl
  unfold UtilMisc.urlparseNetloc
  rw [hstrip, hnet]
  simp [hnb1, hnb2]

/-- **C5 counterexample**: the claim says a `.rsync/host/...` path has
its prefix stripped before host extraction.  `parse_host` special-cases
`rrdp`, `.rrdp` and `rsync` first segments but not `.rsync`, so the
extracted "host" is the literal `.rsync` cache-directory name. -/
theorem c5_counterexample :
    UtilMisc.parse_host (str ".rsync/rsync.example.org/repo/x.mft") =
        .ok (str ".rsync") ∧
      str ".rsync" ≠ str "rsync.example.org" :=
  ⟨rfl, by decide⟩

/-- **C5 (amended)**: host extraction returns the network-location host
for bare `host/...` paths, for `rsync/host/...` paths (prefix stripped)
and for `rrdp/hash/host/...` and `.rrdp/hash/host/...` paths (prefix and
hash segment stripped); an input with fewer than two `/`-separated
segments (no slash at all) raises `ValueError`.  A `.rsync/...` path is
*not* special-cased: it falls through to the bare shape and the extracted
host is the literal `.rsync` segment. -/
theorem c5_parse_host_shapes :
    (∀ s : Str, ('/' ∉ s) → UtilMisc.parse_host s = .error .valueError) ∧
      (∀ host rest : Str, hostClean host = true →
        host ≠ str "rrdp" → host ≠ str ".rrdp" → host ≠ str "rsync" →
        UtilMisc.parse_host (host ++ '/' :: rest) = .ok host) ∧
      (∀ host rest : Str, hostClean host = true →
        UtilMisc.parse_host (str "rsync/" ++ (host ++ '/' :: rest)) = .ok host) ∧
      (∀ hash host rest : Str, noSlash hash = true → hostClean host = true →
        UtilMisc.parse_host (str "rrdp/" ++ (hash ++ '/' :: (host ++ '/' :: rest))) =
          .ok host) ∧
      (∀ hash host rest : Str, noSlash hash = true → hostClean host = true →
        UtilMisc.parse_host (str ".rrdp/" ++ (hash ++ '/' :: (host ++ '/' :: rest))) =
          .ok host) ∧
      (∀ tail0 : Str, UtilMisc.parse_host (str ".rsync/" ++ tail0) =
        .ok (str ".rsync")) := by
  have hostNoSlash : ∀ host : Str, hostClean host = true →
      host.all (fun c => c ≠ '/') = true := by
    intro host hclean
    rw [List.all_eq_true]
    intro c hc
    have := (hostClean_spec hclean) c hc
    simpa using this.1
  refine ⟨?_, ?_, ?_, ?_, ?_, ?_⟩
  · intro s hs
    have hall : s.all (fun c => c ≠ '/') = true := by
      rw [List.all_eq_true]
      intro c hc
      have hne : c ≠ '/' := by
        intro h
        subst h
        exact hs hc
      simpa using hne
    unfold UtilMisc.parse_host
    rw [splitChar_no_sep '/' s hall]
    simp
  · intro host rest hclean h1 h2 h3
    unfold UtilMisc.parse_host
    rw [splitChar_append_cons '/' host rest (hostNoSlash host hclean)]
    have hpos : 0 < (UtilMisc.splitChar '/' rest).length :=
      List.length_pos.mpr (splitChar_ne_nil '/' rest)
    rw [if_neg (by simp only [List.length_cons]; omega)]
    simp only [List.headD_cons]
    rw [if_neg (by simp [h1, h2]), if_neg (by simp [h3])]
    rw [joinSlash_cons host _ (splitChar_ne_nil '/' rest), joinSlash_splitChar]
    exact urlparseNetloc_host host rest hclean
  · intro host rest hclean
    have hx : str "rsync/" ++ (host ++ '/' :: rest) =
        str "rsync" ++ '/' :: (host ++ '/' :: rest) := rfl
    rw [hx]
    unfold UtilMisc.parse_host
    rw [splitChar_append_cons '/' (str "rsync") _ (by decide)]
    rw [splitChar_append_cons '/' host rest (hostNoSlash host hclean)]
    have hpos : 0 < (UtilMisc.splitChar '/' rest).length :=
      List.length_pos.mpr (splitChar_ne_nil '/' rest)
    rw [if_neg (by simp only [List.length_cons]; omega)]
    simp only [List.headD_cons]
    have e1 : str "rsync" ≠ str "rrdp" := by decide
    have e2 : str "rsync" ≠ str ".rrdp" := by decide
    rw [if_neg (by simp [e1, e2]), if_pos (by simp)]
    simp only [List.drop_succ_cons, List.drop_zero]
    rw [joinSlash_cons host _ (splitChar_ne_nil '/' rest), joinSlash_splitChar]
    exact urlparseNetloc_host host rest hclean
  · intro hash host rest hhash hclean
    have hx : str "rrdp/" ++ (hash ++ '/' :: (host ++ '/' :: rest)) =
        str "rrdp" ++ '/' :: (hash ++ '/' :: (host ++ '/' :: rest)) := rfl
    rw [hx]
    unfold UtilMisc.parse_host
    rw [splitChar_append_cons '/' (str "rrdp") _ (by decide)]
    rw [splitChar_append_cons '/' hash _ hhash]
    rw [splitChar_append_cons '/' host rest (hostNoSlash host hclean)]
    have hpos : 0 < (UtilMisc.splitChar '/' rest).length :=
      List.length_pos.mpr (splitChar_ne_nil '/' rest)
    rw [if_neg (by simp only [List.length_cons]; omega)]
    simp only [List.headD_cons]
    rw [if_pos (by simp)]
    simp only [List.drop_succ_cons, List.drop_zero]
    rw [joinSlash_cons host _ (splitChar_ne_nil '/' rest), joinSlash_splitChar]
    exact urlparseNetloc_host host rest hclean
  · intro hash host rest hhash hclean
    have hx : str ".rrdp/" ++ (hash ++ '/' :: (host ++ '/' :: rest)) =
        str ".rrdp" ++ '/' :: (hash ++ '/' :: (host ++ '/' :: rest)) := rfl
    rw [hx]
    unfold UtilMisc.parse_host
    rw [splitChar_append_cons '/' (str ".rrdp") _ (by decide)]
    rw [splitChar_append_cons '/' hash _ hhash]
    rw [splitChar_append_cons '/' host rest (hostNoSlash host hclean)]
    have hpos : 0 < (UtilMisc.splitChar '/' rest).length :=
      List.length_pos.mpr (splitChar_ne_nil '/' rest)
    rw [if_neg (by simp only [List.length_cons]; omega)]
    simp only [List.headD_cons]
    rw [if_pos (by simp)]
    simp only [List.drop_succ_cons, List.drop_zero]
    rw [joinSlash_cons host _ (splitChar_ne_nil '/' rest), joinSlash_splitChar]
    exact urlparseNetloc_host host rest hclean
  · intro tail0
    have hx : str ".rsync/" ++ tail0 = str ".rsync" ++ '/' :: tail0 := rfl
    rw [hx]
    unfold UtilMisc.parse_host
    rw [splitChar_append_cons '/' (str ".rsync") tail0 (by decide)]
    have hpos : 0 < (UtilMisc.splitChar '/' tail0).length :=
      List.length_pos.mpr (splitChar_ne_nil '/' tail0)
    rw [if_neg (by simp only [List.length_cons]; omega)]
    simp only [List.headD_cons]
    have e1 : str ".rsync" ≠ str "rrdp" := by decide
    have e2 : str ".rsync" ≠ str ".rrdp" := by decide
    have e3 : str ".rsync" ≠ str "rsync" := by decide
    rw [if_neg (by simp [e1, e2]), if_neg (by simp [e3])]
    rw [joinSlash_cons _ _ (splitChar_ne_nil '/' tail0), joinSlash_splitChar]
    exact urlparseNetloc_host (str ".rsync") tail0 (by decide)

/-- **C5 witness**: the theorem's `rsync/...` and `rrdp/...` conjuncts
applied to the spec's own examples. -/
theorem c5_parse_host_shapes_witness :
    UtilMisc.parse_host (str "rsync/rpki.apnic.net/repo/x.mft") =
        .ok (str "rpki.apnic.net") ∧
      UtilMisc.parse_host (str "rrdp/0a1b/ca.rg.net/rpki/x.mft") =
        .ok (str "ca.rg.net") :=
  ⟨c5_parse_host_shapes.2.2.1 (str "rpki.apnic.net") (str "repo/x.mft") (by decide),
   c5_parse_host_shapes.2.2.2.1 (str "0a1b") (str "ca.rg.net") (str "rpki/x.mft")
     (by decide) (by decide)⟩

/-! ## C1 — cross-run repository reconciliation -/

/-- **C1 counterexample**: with previous pulling set `{A, B}` and a
*failed* run whose stderr pulls only from `A`, the gauges of `B` are not
removed (as the claim says), but the stored comparison set is *not*
retained: line 329 overwrites it with the current run's set `{A}`
unconditionally, so `B` is already absent from the next run's
comparison set. -/
theorem c1_counterexample :
    (RpkiClientMod.update_warning_metrics ⟨[], {str "A", str "B"}⟩
        (str "rpki-client: A: pulling from network") false).newState =
      some ⟨[], {str "A"}⟩ ∧
      (RpkiClientMod.update_warning_metrics ⟨[], {str "A", str "B"}⟩
          (str "rpki-client: A: pulling from network") false).effects.removed_unreferenced =
        ∅ ∧
      ({str "A"} : Finset Str) ≠ {str "A", str "B"} := by
  decide

/-- **C1 (amended)**: the `pulling`/`pulled` gauges of a repository in the
previous set but absent from the current run's pulling set are removed
only when the run was successful (on a failed run nothing is removed) —
but the stored comparison set is replaced by the current run's pulling
set on *every* completed call, successful or not.  Consequently, after a
failed run and then a successful run, the removal set is computed against
the failed run's pulling set, not the last successful one. -/
theorem c1_reconciliation :
    (∀ (st : RpkiClientMod.ClientState) (stderr : Str) (succ : Bool),
        (RpkiClientMod.update_warning_metrics st stderr succ).effects.removed_unreferenced =
          if succ then
            st.last_update_repos \
              Outputparser.pulling (Outputparser.outputParserLines stderr)
          else ∅) ∧
      (∀ (st : RpkiClientMod.ClientState) (stderr : Str) (succ : Bool)
          (st' : RpkiClientMod.ClientState),
        (RpkiClientMod.update_warning_metrics st stderr succ).newState = some st' →
          st'.last_update_repos =
            Outputparser.pulling (Outputparser.outputParserLines stderr)) ∧
      (∀ (st : RpkiClientMod.ClientState) (l2 l3 : Str)
          (st₂ : RpkiClientMod.ClientState),
        (RpkiClientMod.update_warning_metrics st l2 false).newState = some st₂ →
          (RpkiClientMod.update_warning_metrics st₂ l3 true).effects.removed_unreferenced =
            Outputparser.pulling (Outputparser.outputParserLines l2) \
              Outputparser.pulling (Outputparser.outputParserLines l3)) := by
  have h1 : ∀ (st : RpkiClientMod.ClientState) (stderr : Str) (succ : Bool),
      (RpkiClientMod.update_warning_metrics st stderr succ).effects.removed_unreferenced =
        if succ then
          st.last_update_repos \
            Outputparser.pulling (Outputparser.outputParserLines stderr)
        else ∅ := by
    intro st stderr succ
    cases hu : (Outputparser.warningsList (Outputparser.outputParserLines stderr)).uncaught with
    | some e => simp [RpkiClientMod.update_warning_metrics, hu]
    | none =>
      cases hs : Outputparser.statistics_by_host
          (Outputparser.warningsList (Outputparser.outputParserLines stderr)).events with
      | error e => simp [RpkiClientMod.update_warning_metrics, hu, hs]
      | ok nw => simp [RpkiClientMod.update_warning_metrics, hu, hs]
  have h2 : ∀ (st : RpkiClientMod.ClientState) (stderr : Str) (succ : Bool)
      (st' : RpkiClientMod.ClientState),
      (RpkiClientMod.update_warning_metrics st stderr succ).newState = some st' →
        st'.last_update_repos =
          Outputparser.pulling (Outputparser.outputParserLines stderr) := by
    intro st stderr succ st' h
    cases hu : (Outputparser.warningsList (Outputparser.outputParserLines stderr)).uncaught with
    | some e => simp [RpkiClientMod.update_warning_metrics, hu] at h
    | none =>
      cases hs : Outputparser.statistics_by_host
          (Outputparser.warningsList (Outputparser.outputParserLines stderr)).events with
      | error e => simp [RpkiClientMod.update_warning_metrics, hu, hs] at h
      | ok nw =>
        simp only [RpkiClientMod.update_warning_metrics, hu, hs,
          Option.some.injEq] at h
        rw [← h]
  refine ⟨h1, h2, fun st l2 l3 st₂ hst₂ => ?_⟩
  rw [h1 st₂ l3 true, if_pos rfl, h2 st l2 false st₂ hst₂]

/-- **C1 witness**: the two-run conjunct applied to a concrete failed run
pulling `{A}` after a previous set `{A, B}`; the next successful run's
removal set is computed from the failed run's set. -/
theorem c1_reconciliation_witness :
    (RpkiClientMod.update_warning_metrics ⟨[], {str "A"}⟩ (str "") true).effects.removed_unreferenced =
      Outputparser.pulling
          (Outputparser.outputParserLines (str "rpki-client: A: pulling from network")) \
        Outputparser.pulling (Outputparser.outputParserLines (str "")) :=
  c1_reconciliation.2.2 ⟨[], {str "A", str "B"}⟩
    (str "rpki-client: A: pulling from network") (str "") ⟨[], {str "A"}⟩ (by decide)

end RpkiWeb
